import Mathlib

/-!
Verification development for the Email-Scheduler application (src/app.py).

The Python source is shallowly embedded below.  Strings are handled as
`List Char` pipelines wrapped in `String`; `datetime.time` values become
`TimeOfDay`, `datetime.date` values become `PyDate`, and absolute
timestamps are modelled as `Int` minutes on a proleptic Gregorian day
count in the fixed local timezone (the program compares, subtracts 4
hours from, and adds 5 minutes to timezone-aware datetimes, all of which
are exact at minute granularity).  The database is a list of `Order`
records, the APScheduler job queue a list of `Job` records, and the
observable side effects of a call (SMTP dispatch attempts, flashed
errors, job cancellations, record deletions) are returned as a list of
`Event`s.  The outcome of the SMTP transport is a Boolean parameter
`dispatchOk` to each function that may send mail.
-/

set_option maxRecDepth 100000

/-- Time of day, mirroring `datetime.time` at minute resolution (the
program only ever constructs minute-precision times). -/
structure TimeOfDay where
  hour : Nat
  minute : Nat
  deriving DecidableEq

/-- Calendar date, mirroring `datetime.date`. -/
structure PyDate where
  year : Nat
  month : Nat
  day : Nat
  deriving DecidableEq

/- ------------------------------------------------------------------
Character and string helpers shared by the embedded functions.
------------------------------------------------------------------ -/

/-- Python `\s` / `str.strip` whitespace set (ASCII part; all inputs of
this program are ASCII). -/
def isWs (c : Char) : Bool :=
  c = ' ' ∨ c = '\t' ∨ c = '\n' ∨ c = '\x0b' ∨ c = '\x0c' ∨ c = '\r'

/-- Python `str.strip()`: drop leading and trailing whitespace. -/
def pyStrip (l : List Char) : List Char :=
  ((l.dropWhile isWs).reverse.dropWhile isWs).reverse

/-- Python `str.upper()` on ASCII text. -/
def pyUpper (l : List Char) : List Char :=
  l.map Char.toUpper

/-- Numeric value of an ASCII digit character (`int(c)` on a digit). -/
def charVal (c : Char) : Nat :=
  c.toNat - 48

/-- Decimal digit character for `n < 10` (used to model `str(n)`). -/
def digitChar : Nat → Char
  | 0 => '0' | 1 => '1' | 2 => '2' | 3 => '3' | 4 => '4'
  | 5 => '5' | 6 => '6' | 7 => '7' | 8 => '8' | 9 => '9'
  | _ => '?'

/-- Fuel-driven core of `str(n)` for naturals; the fuel only bounds the
recursion depth and `n + 1` is always sufficient. -/
def natCharsCore : Nat → Nat → List Char → List Char
  | 0, _, acc => acc
  | f + 1, n, acc =>
      if n < 10 then digitChar n :: acc
      else natCharsCore f (n / 10) (digitChar (n % 10) :: acc)

/-- Decimal representation of a natural number, modelling Python
`str(n)`. -/
def natChars (n : Nat) : List Char :=
  natCharsCore (n + 1) n []

/-- Value of a list of digit characters read in base 10. -/
def valDigits (l : List Char) : Nat :=
  l.foldl (fun a c => 10 * a + charVal c) 0

/- ------------------------------------------------------------------
parse_pickup_time (src/app.py lines 94-116).
------------------------------------------------------------------ -/

/-- Embeds `re.sub(r'(\d)([AP]M)', r'\1 \2', s)`: left-to-right,
non-overlapping insertion of a space between a digit and an AM/PM
marker. -/
def insertAmPmSpace : List Char → List Char
  | d :: p :: 'M' :: rest =>
      if d.isDigit ∧ (p = 'A' ∨ p = 'P') then
        d :: ' ' :: p :: 'M' :: insertAmPmSpace rest
      else
        d :: insertAmPmSpace (p :: 'M' :: rest)
  | c :: rest => c :: insertAmPmSpace rest
  | [] => []

/-- Character class kept by `re.sub(r'[^0-9: AMPM]', '', s)` (note that
the hyphen is *not* in the kept set, so it is removed here, before the
range split below ever looks for it). -/
def keepChar (c : Char) : Bool :=
  c.isDigit ∨ c = ':' ∨ c = ' ' ∨ c = 'A' ∨ c = 'M' ∨ c = 'P'

/-- Embeds `if '-' in s: s = s.split('-')[0].strip()`. -/
def dashSplit (l : List Char) : List Char :=
  if l.contains '-' then pyStrip (l.takeWhile (fun c => c ≠ '-')) else l

/-- Regex fragment `%I` of `_strptime`: `(1[0-2]|0[1-9]|[1-9])`, trying
the two-digit alternatives before the one-digit one.  (In both formats
of the program the character after the hour is a colon or whitespace,
never a digit, so this alternation order is equivalent to the regex
engine's backtracking behaviour.) -/
def readI : List Char → Option (Nat × List Char)
  | c1 :: c2 :: rest =>
      if c1 = '1' ∧ ('0' ≤ c2 ∧ c2 ≤ '2') then some (10 + charVal c2, rest)
      else if c1 = '0' ∧ ('1' ≤ c2 ∧ c2 ≤ '9') then some (charVal c2, rest)
      else if '1' ≤ c1 ∧ c1 ≤ '9' then some (charVal c1, c2 :: rest)
      else none
  | [c1] =>
      if '1' ≤ c1 ∧ c1 ≤ '9' then some (charVal c1, []) else none
  | [] => none

/-- Regex fragment `%M`: `([0-5]\d|\d)`. -/
def readMin : List Char → Option (Nat × List Char)
  | c1 :: c2 :: rest =>
      if ('0' ≤ c1 ∧ c1 ≤ '5') ∧ c2.isDigit then
        some (10 * charVal c1 + charVal c2, rest)
      else if c1.isDigit then some (charVal c1, c2 :: rest)
      else none
  | [c1] => if c1.isDigit then some (charVal c1, []) else none
  | [] => none

/-- Whitespace in a `strptime` format string matches `\s+`: require at
least one whitespace character and consume the whole run. -/
def eatWs1 : List Char → Option (List Char)
  | c :: rest => if isWs c then some (rest.dropWhile isWs) else none
  | [] => none

/-- Regex fragment `%p` (`AM|PM`, case-insensitive): returns `true` for
PM. -/
def readAmPm : List Char → Option (Bool × List Char)
  | a :: m :: rest =>
      if (a = 'A' ∨ a = 'a') ∧ (m = 'M' ∨ m = 'm') then some (false, rest)
      else if (a = 'P' ∨ a = 'p') ∧ (m = 'M' ∨ m = 'm') then some (true, rest)
      else none
  | _ => none

/-- Hour conversion performed by `_strptime` when both `%I` and `%p` are
present. -/
def hour24 (h : Nat) (pm : Bool) : Nat :=
  if pm then (if h = 12 then 12 else h + 12)
  else (if h = 12 then 0 else h)

/-- `datetime.strptime(s, "%I:%M %p").time()`, `none` on `ValueError`
(the whole input must be consumed). -/
def strpIMp (l : List Char) : Option TimeOfDay :=
  match readI l with
  | some (h, ':' :: r1) =>
      match readMin r1 with
      | some (m, r2) =>
          match eatWs1 r2 with
          | some r3 =>
              match readAmPm r3 with
              | some (pm, []) => some ⟨hour24 h pm, m⟩
              | _ => none
          | none => none
      | none => none
  | _ => none

/-- `datetime.strptime(s, "%I %p").time()`, `none` on `ValueError`. -/
def strpIp (l : List Char) : Option TimeOfDay :=
  match readI l with
  | some (h, r1) =>
      match eatWs1 r1 with
      | some r2 =>
          match readAmPm r2 with
          | some (pm, []) => some ⟨hour24 h pm, 0⟩
          | _ => none
      | none => none
  | none => none

/-- `parse_pickup_time` (src/app.py lines 94-116).  An empty string is
falsy in Python and short-circuits to the midnight fallback
`datetime.min.time()`; all other failures also fall back to midnight. -/
def parse_pickup_time (s : String) : TimeOfDay :=
  if s = "" then ⟨0, 0⟩
  else
    let l := pyUpper (pyStrip s.toList)
    let l := insertAmPmSpace l
    let l := l.filter keepChar
    let l := dashSplit l
    match strpIMp l with
    | some t => t
    | none =>
        match strpIp l with
        | some t => t
        | none => ⟨0, 0⟩

/- ------------------------------------------------------------------
format_pickup_time (src/app.py lines 141-153).
------------------------------------------------------------------ -/

/-- Python `str.replace("  ", " ")`: replace every non-overlapping
occurrence, scanning left to right. -/
def replaceDoubleSpace : List Char → List Char
  | ' ' :: ' ' :: rest => ' ' :: replaceDoubleSpace rest
  | c :: rest => c :: replaceDoubleSpace rest
  | [] => []

/-- Two-digit zero-padded decimal field of `strftime`. -/
def pad2 (n : Nat) : List Char :=
  if n < 10 then ['0', digitChar n] else natChars n

/-- `datetime.strftime(t, "%I:%M %p")`. -/
def strfIMp (t : TimeOfDay) : List Char :=
  let h12 := if t.hour = 0 then 12 else if t.hour > 12 then t.hour - 12 else t.hour
  pad2 h12 ++ ':' :: pad2 t.minute ++ ' ' :: (if t.hour ≥ 12 then ['P', 'M'] else ['A', 'M'])

/-- `format_pickup_time` (src/app.py lines 141-153).  On a `ValueError`
from `strptime` the function returns the *rebound* local variable, i.e.
the stripped/uppercased/space-normalized text, not the original
argument. -/
def format_pickup_time (s : String) : String :=
  let l := pyUpper (pyStrip s.toList)
  let l := insertAmPmSpace l
  let l := replaceDoubleSpace l
  let l := dashSplit l
  match strpIMp l with
  | some t => String.mk (strfIMp t)
  | none => String.mk l

/- ------------------------------------------------------------------
parse_date_from_item_name (src/app.py lines 118-139).
------------------------------------------------------------------ -/

/-- Leap-year test of the Gregorian calendar (`calendar.isleap`, used by
`datetime`'s day-of-month validation). -/
def isLeap (y : Nat) : Bool :=
  y % 4 = 0 ∧ (y % 100 ≠ 0 ∨ y % 400 = 0)

/-- Number of days in a month, as validated by the `datetime.date`
constructor. -/
def daysInMonth (y m : Nat) : Nat :=
  if m = 2 then (if isLeap y then 29 else 28)
  else if m = 4 ∨ m = 6 ∨ m = 9 ∨ m = 11 then 30
  else 31

/-- Greedy `\d{1,2}`: two digits if available, else one, else fail. -/
def grabDigits2 : List Char → Option (List Char × List Char)
  | a :: b :: r =>
      if a.isDigit ∧ b.isDigit then some ([a, b], r)
      else if a.isDigit then some ([a], b :: r)
      else none
  | [a] => if a.isDigit then some ([a], []) else none
  | [] => none

/-- Continuation of the search pattern `(\d{1,2}/\d{1,2})(/\d{4})?`
after the month digits `mtext` have been taken: a slash, the greedy day
digits, then the optional four-digit year group.  Returns the two
regex capture groups. -/
def matchTail (mtext : List Char) : List Char → Option (List Char × Option (List Char))
  | '/' :: r2 =>
      match grabDigits2 r2 with
      | some (dtext, r3) =>
          match r3 with
          | '/' :: a :: b :: c :: e :: _ =>
              if a.isDigit ∧ b.isDigit ∧ c.isDigit ∧ e.isDigit then
                some (mtext ++ '/' :: dtext, some ['/', a, b, c, e])
              else some (mtext ++ '/' :: dtext, none)
          | _ => some (mtext ++ '/' :: dtext, none)
      | none => none
  | _ => none

/-- One attempt of `re.search(r'(\d{1,2}/\d{1,2})(/\d{4})?', s)` at the
current position, with the regex engine's backtracking from the
two-digit to the one-digit month alternative. -/
def matchAt : List Char → Option (List Char × Option (List Char))
  | c1 :: c2 :: rest =>
      if c1.isDigit ∧ c2.isDigit then
        match matchTail [c1, c2] rest with
        | some r => some r
        | none => matchTail [c1] (c2 :: rest)
      else if c1.isDigit then matchTail [c1] (c2 :: rest)
      else none
  | [c1] => if c1.isDigit then matchTail [c1] [] else none
  | [] => none

/-- `re.search`: leftmost position at which the pattern matches. -/
def searchMD : List Char → Option (List Char × Option (List Char))
  | [] => none
  | c :: rest =>
      match matchAt (c :: rest) with
      | some r => some r
      | none => searchMD rest

/-- Regex fragment `%m` of `_strptime`: `(1[0-2]|0[1-9]|[1-9])` (in the
assembled `M/D/Y` string the character after the month is a slash,
never a digit, so this alternation order is equivalent to
backtracking). -/
def readMonth : List Char → Option (Nat × List Char)
  | c1 :: c2 :: rest =>
      if c1 = '1' ∧ ('0' ≤ c2 ∧ c2 ≤ '2') then some (10 + charVal c2, rest)
      else if c1 = '0' ∧ ('1' ≤ c2 ∧ c2 ≤ '9') then some (charVal c2, rest)
      else if '1' ≤ c1 ∧ c1 ≤ '9' then some (charVal c1, c2 :: rest)
      else none
  | [c1] => if '1' ≤ c1 ∧ c1 ≤ '9' then some (charVal c1, []) else none
  | [] => none

/-- Regex fragment `%d`: `(3[01]|[12]\d|0[1-9]|[1-9])`. -/
def readDay : List Char → Option (Nat × List Char)
  | c1 :: c2 :: rest =>
      if c1 = '3' ∧ (c2 = '0' ∨ c2 = '1') then some (30 + charVal c2, rest)
      else if (c1 = '1' ∨ c1 = '2') ∧ c2.isDigit then
        some (10 * charVal c1 + charVal c2, rest)
      else if c1 = '0' ∧ ('1' ≤ c2 ∧ c2 ≤ '9') then some (charVal c2, rest)
      else if '1' ≤ c1 ∧ c1 ≤ '9' then some (charVal c1, c2 :: rest)
      else none
  | [c1] => if '1' ≤ c1 ∧ c1 ≤ '9' then some (charVal c1, []) else none
  | [] => none

/-- Regex fragment `%Y`: exactly four digits. -/
def readY4 : List Char → Option (Nat × List Char)
  | a :: b :: c :: e :: r =>
      if a.isDigit ∧ b.isDigit ∧ c.isDigit ∧ e.isDigit then
        some (valDigits [a, b, c, e], r)
      else none
  | _ => none

/-- `datetime.strptime(s, "%m/%d/%Y").date()`: parse and then the
`datetime` constructor's validation (`MINYEAR ≤ year`, day in range for
the month); `none` models the `ValueError`. -/
def strpMDY (l : List Char) : Option PyDate :=
  match readMonth l with
  | some (m, '/' :: r1) =>
      match readDay r1 with
      | some (d, '/' :: r2) =>
          match readY4 r2 with
          | some (y, []) =>
              if 1 ≤ y ∧ d ≤ daysInMonth y m then some ⟨y, m, d⟩ else none
          | _ => none
      | _ => none
  | _ => none

/-- Lowercase an ASCII letter (for `_strptime`'s case-insensitive month
name matching). -/
def lowerAscii (c : Char) : Char := c.toLower

/-- Month abbreviations of `%b` in the C locale, matched
case-insensitively. -/
def monAbbrs : List (List Char × Nat) :=
  [(['j','a','n'], 1), (['f','e','b'], 2), (['m','a','r'], 3), (['a','p','r'], 4),
   (['m','a','y'], 5), (['j','u','n'], 6), (['j','u','l'], 7), (['a','u','g'], 8),
   (['s','e','p'], 9), (['o','c','t'], 10), (['n','o','v'], 11), (['d','e','c'], 12)]

/-- Full month names of `%B` in the C locale. -/
def monFulls : List (List Char × Nat) :=
  [(['j','a','n','u','a','r','y'], 1), (['f','e','b','r','u','a','r','y'], 2),
   (['m','a','r','c','h'], 3), (['a','p','r','i','l'], 4), (['m','a','y'], 5),
   (['j','u','n','e'], 6), (['j','u','l','y'], 7), (['a','u','g','u','s','t'], 8),
   (['s','e','p','t','e','m','b','e','r'], 9), (['o','c','t','o','b','e','r'], 10),
   (['n','o','v','e','m','b','e','r'], 11), (['d','e','c','e','m','b','e','r'], 12)]

/-- Case-insensitive literal match of `pat` at the head of `l`. -/
def stripCI : List Char → List Char → Option (List Char)
  | [], l => some l
  | _ :: _, [] => none
  | p :: ps, c :: cs => if lowerAscii c = p then stripCI ps cs else none

/-- Try each month name of a table at the head of the input.
`_strptime` sorts the keywords longest-first, so that e.g. `May` inside
`%B` does not shadow a longer name; the tables above contain no name
that is a prefix of another, hence plain order is equivalent. -/
def readMonName (table : List (List Char × Nat)) (l : List Char) : Option (Nat × List Char) :=
  match table with
  | [] => none
  | (pat, m) :: rest =>
      match stripCI pat l with
      | some r => some (m, r)
      | none => readMonName rest l

/-- `datetime.strptime(s, "%b %d").date()` — note `_strptime`'s default
year is 1900 when the format has no year field. -/
def strpBD (l : List Char) : Option PyDate :=
  match readMonName monAbbrs l with
  | some (m, r1) =>
      match eatWs1 r1 with
      | some r2 =>
          match readDay r2 with
          | some (d, []) =>
              if d ≤ daysInMonth 1900 m then some ⟨1900, m, d⟩ else none
          | _ => none
      | none => none
  | none => none

/-- `datetime.strptime(s, "%B %d, %Y").date()`. -/
def strpBDY (l : List Char) : Option PyDate :=
  match readMonName monFulls l with
  | some (m, r1) =>
      match eatWs1 r1 with
      | some r2 =>
          match readDay r2 with
          | some (d, ',' :: r3) =>
              match eatWs1 r3 with
              | some r4 =>
                  match readY4 r4 with
                  | some (y, []) =>
                      if 1 ≤ y ∧ d ≤ daysInMonth y m then some ⟨y, m, d⟩ else none
                  | _ => none
              | none => none
          | _ => none
      | none => none
  | none => none

/-- `datetime.strptime(s, "%Y-%m-%d").date()`. -/
def strpYMD (l : List Char) : Option PyDate :=
  match readY4 l with
  | some (y, '-' :: r1) =>
      match readMonth r1 with
      | some (m, '-' :: r2) =>
          match readDay r2 with
          | some (d, []) =>
              if 1 ≤ y ∧ d ≤ daysInMonth y m then some ⟨y, m, d⟩ else none
          | _ => none
      | _ => none
  | _ => none

/-- The loop `for fmt in ["%b %d", "%B %d, %Y", "%Y-%m-%d"]`, first
success wins. -/
def tryNameFormats (l : List Char) : Option PyDate :=
  match strpBD l with
  | some d => some d
  | none =>
      match strpBDY l with
      | some d => some d
      | none => strpYMD l

/-- Python `str.split()` (split on whitespace runs, no empty tokens):
accumulator-based single pass. -/
def splitWsAux : List Char → List Char → List (List Char)
  | [], acc => if acc = [] then [] else [acc.reverse]
  | c :: r, acc =>
      if isWs c then
        (if acc = [] then splitWsAux r [] else acc.reverse :: splitWsAux r [])
      else splitWsAux r (c :: acc)

/-- Python `str.split()`. -/
def pySplitWs (l : List Char) : List (List Char) := splitWsAux l []

/-- Single-space join of `" ".join(...)`. -/
def joinSp : List (List Char) → List Char
  | [] => []
  | [t] => t
  | t :: ts => t ++ ' ' :: joinSp ts

/-- `" ".join(item_name.split()[:2])`. -/
def joinFirstTwo (s : String) : List Char :=
  joinSp ((pySplitWs s.toList).take 2)

/-- `parse_date_from_item_name` (src/app.py lines 118-139).  `cy` is
`datetime.now(tz=LOCAL_TZ).year` and `today` is
`datetime.now(tz=LOCAL_TZ).date()`.  When the numeric search matches
but `strptime`/`datetime` raise, the outer `except` returns `today`
without trying the month-name layouts. -/
def parse_date_from_item_name (cy : Nat) (today : PyDate) (item : String) : PyDate :=
  match searchMD item.toList with
  | some (g1, g2) =>
      let yc : List Char := match g2 with
        | some g => g.drop 1
        | none => natChars cy
      match strpMDY (g1 ++ '/' :: yc) with
      | some d => d
      | none => today
  | none =>
      match tryNameFormats (joinFirstTwo item) with
      | some d => d
      | none => today

/- ------------------------------------------------------------------
Python str.format with keyword arguments (named placeholders), used for
subject/body substitution.  Any exception of `format` (KeyError for an
unknown name, IndexError for a positional field, ValueError for a
malformed template) is modelled as `none`; the program catches them all
with one `except`.  Format specifications and conversions are not used
by the program's templates and are not modelled (a field is the text up
to the closing brace).  The fuel argument only bounds the recursion and
`length + 1` is always sufficient.
------------------------------------------------------------------ -/

def pyFAux (d : List (String × String)) : Nat → List Char → Option (List Char)
  | 0, _ => none
  | _ + 1, [] => some []
  | f + 1, '\x7b' :: '\x7b' :: rest => (pyFAux d f rest).map (fun r => '\x7b' :: r)
  | f + 1, '\x7b' :: rest =>
      let name := rest.takeWhile (fun c => c ≠ '\x7d')
      match rest.dropWhile (fun c => c ≠ '\x7d') with
      | '\x7d' :: rest2 =>
          match d.lookup (String.mk name) with
          | some v => (pyFAux d f rest2).map (fun r => v.toList ++ r)
          | none => none
      | _ => none
  | f + 1, '\x7d' :: '\x7d' :: rest => (pyFAux d f rest).map (fun r => '\x7d' :: r)
  | _ + 1, '\x7d' :: _ => none
  | f + 1, c :: rest => (pyFAux d f rest).map (fun r => c :: r)

/-- `template.format(**d)`, `none` when `format` raises. -/
def pyFormat (t : String) (d : List (String × String)) : Option String :=
  (pyFAux d (t.toList.length + 1) t.toList).map String.mk

/-- The list of field names a template references, `none` when the
template is malformed (unbalanced braces); mirrors the scan of
`pyFAux` without performing lookups. -/
def tpAux : Nat → List Char → Option (List String)
  | 0, _ => none
  | _ + 1, [] => some []
  | f + 1, '\x7b' :: '\x7b' :: rest => tpAux f rest
  | f + 1, '\x7b' :: rest =>
      let name := rest.takeWhile (fun c => c ≠ '\x7d')
      match rest.dropWhile (fun c => c ≠ '\x7d') with
      | '\x7d' :: rest2 => (tpAux f rest2).map (fun ns => String.mk name :: ns)
      | _ => none
  | f + 1, '\x7d' :: '\x7d' :: rest => tpAux f rest
  | _ + 1, '\x7d' :: _ => none
  | f + 1, _ :: rest => tpAux f rest

/-- Field names referenced by a template. -/
def templatePlaceholders (t : String) : Option (List String) :=
  tpAux (t.toList.length + 1) t.toList

/- ------------------------------------------------------------------
Data model: orders, scheduler jobs, observable events.
------------------------------------------------------------------ -/

/-- A row of the `orders` table (src/app.py lines 51-68).  `send_time`
is an absolute timestamp in minutes (see the header comment); nullable
TEXT columns are `Option String`. -/
structure Order where
  id : Nat
  email : String
  order_number : String
  pickup_time : String
  item_name : String
  full_name : String
  send_time : Int
  status : String
  job_id : Option Nat
  custom_subject : Option String
  custom_body : Option String
  total : Option String
  invoice_url : Option String
  csv_format : Option String
  deriving DecidableEq

/-- An APScheduler one-shot `DateTrigger` job created by the import
route: it will run `send_reminder_email(orderId, fmt)` at `runDate`. -/
structure Job where
  jobId : Nat
  orderId : Nat
  runDate : Int
  fmt : String
  deriving DecidableEq

/-- Observable side effects of the embedded operations.  `dispatched`
is a `yag.send` attempt (its `ok` flag is the transport outcome);
`templateError` and `dispatchError` are the flashed/printed error
reports of `send_reminder_email`; `cancelJob` is
`scheduler.remove_job`; `deleteRecord` a SQL `DELETE`; `pyCrash` is an
uncaught Python exception propagating out of `send_reminder_email` to
its caller (the IndexError of src/app.py line 178). -/
inductive Event where
  | dispatched (toAddr subject body sender : String) (mealAttachment ok : Bool)
  | templateError (oid : Nat)
  | dispatchError (oid : Nat)
  | cancelJob (jobId : Nat)
  | deleteRecord (oid : Nat)
  | pyCrash (oid : Nat)
  deriving DecidableEq

/-- Whether an event is a `yag.send` attempt. -/
def isDispatch : Event → Bool
  | .dispatched _ _ _ _ _ _ => true
  | _ => false

/-- Whether an event is an uncaught exception escaping to the caller. -/
def isCrash : Event → Bool
  | .pyCrash _ => true
  | _ => false

/-- `SELECT ... FROM orders WHERE id = %s` (ids are unique SERIAL
values; the first match is the row). -/
def dbGet (db : List Order) (oid : Nat) : Option Order :=
  db.find? (fun o => o.id == oid)

/-- `UPDATE orders SET status = %s WHERE id = %s`. -/
def dbUpdateStatus (db : List Order) (oid : Nat) (st : String) : List Order :=
  db.map (fun o => if o.id == oid then { o with status := st } else o)

/-- `UPDATE orders SET job_id = %s WHERE id = %s`. -/
def dbUpdateJob (db : List Order) (oid : Nat) (j : Option Nat) : List Order :=
  db.map (fun o => if o.id == oid then { o with job_id := j } else o)

/-- `DELETE FROM orders WHERE id = %s`. -/
def dbDelete (db : List Order) (oid : Nat) : List Order :=
  db.filter (fun o => o.id != oid)

/-- `scheduler.remove_job(job_id)` wrapped in `try/except: pass`
(best-effort removal). -/
def removeJob (jobs : List Job) (j : Nat) : List Job :=
  jobs.filter (fun jb => jb.jobId != j)

/-- Python `x or default` for a nullable string: `None` and `''` are
falsy. -/
def pyOrS (x : Option String) (dflt : String) : String :=
  match x with
  | some s => if s = "" then dflt else s
  | none => dflt

/-- Python `x or ''` for a nullable string. -/
def orEmpty (x : Option String) : String :=
  match x with
  | some s => s
  | none => ""

/-- `full_name.split()[0] if full_name else ''` (src/app.py line 178).
An empty (falsy) name short-circuits to `''`; a nonempty name is split
on whitespace and indexed at 0, which raises an uncaught `IndexError`
when the name is all whitespace — that crash is `none` here. -/
def firstTokenName (s : String) : Option String :=
  if s = "" then some ""
  else
    match pySplitWs s.toList with
    | t :: _ => some (String.mk t)
    | [] => none

/-- `item_name.split()[0]` as used at src/app.py line 211 for the
wonton date.  That line runs only under the guard
`'Wonton' in item_name`, which forces a non-whitespace character and
hence a first token, so the `''` default of this total wrapper is
unreachable there. -/
def firstTokOrEmpty (s : String) : String :=
  match pySplitWs s.toList with
  | t :: _ => String.mk t
  | [] => ""

/-- `needle` occurs at the head of `hay`. -/
def startsWithChars : List Char → List Char → Bool
  | [], _ => true
  | _ :: _, [] => false
  | a :: as', b :: bs => a = b ∧ startsWithChars as' bs

/-- Python `needle in hay` substring test. -/
def containsSub (needle : List Char) : List Char → Bool
  | [] => startsWithChars needle []
  | c :: r => startsWithChars needle (c :: r) ∨ containsSub needle r

/-- `item_name and 'Wonton' in item_name` (src/app.py line 210). -/
def isWontonItem (item : String) : Bool :=
  item ≠ "" ∧ containsSub "Wonton".toList item.toList

/- ------------------------------------------------------------------
Email configuration (src/app.py lines 85-88).  The credential strings
are the environment fallbacks; the secrets themselves are abstracted to
opaque placeholder strings, which is all the selection logic needs.
------------------------------------------------------------------ -/

def SENDER_EMAIL : String := "orderbentolicious@gmail.com"
def SENDER_PASSWORD : String := "meal-app-password"
def DANCE_SENDER_EMAIL : String := "usa.tvda@gmail.com"
def DANCE_SENDER_PASSWORD : String := "dance-app-password"

/-- Credential set selected by the effective csv format
(src/app.py lines 175-176): dance invoices use the dance account, every
other format the default meal account. -/
def senderFor (fmt : String) : String × String :=
  if fmt = "dance_invoice" then (DANCE_SENDER_EMAIL, DANCE_SENDER_PASSWORD)
  else (SENDER_EMAIL, SENDER_PASSWORD)

/- Default templates (src/app.py lines 187-234), verbatim. -/

def danceSubjectT : String := "[TVDA] {invoice_desp}_{student_name}_#({invoice_num})"

def danceBodyT : String := "Dear {parent_name},\n\nAttached, please find {student_name}\x27s {invoice_desp} in the amount of {total}:\n\n{invoice_url}\n\nPayment is due upon receipt.\n\nPayment method:\n- Zelle: 510-988-8666\n- PayPal: 510-988-8666\n- Check pay to the order of Tri-Valley Dance Academy \n- Cash\n\nPlease include invoice # {invoice_num} in the payment memo.\n\nThanks for your attention.\n\nBest regards,\n\nTVDA admin"

def mealSubjectT : String := "[Bentolicious] {item_name} Pick Up Reminder (Order #{order_number})"

def wontonBodyT : String := "Hi {full_name},\n\nThis is a reminder for your wonton order on {date_str} scheduled for pickup around {pickup_time}.\n\nThank you,\nBentolicious Team\n\nPick up Location: Bentolicious (4833 Hopyard Road, E#3 Pleasanton)\nThe store is located at the back side of the plaza near Chabot Drive.\n"

def plainBodyT : String := "Hi {full_name},\n\nThis is a reminder that your order \x27{item_name}\x27 is scheduled for pickup at {pickup_time}.\n\nThank you,\nBentolicious Team\n\nPick up Location: Bentolicious (4833 Hopyard Road, E#3 Pleasanton)\nThe store is located at the back side of the plaza near Chabot Drive.\n"

/-- `csv_format = stored_csv_format or csv_format`
(src/app.py line 173). -/
def effFmt (o : Order) (arg : String) : String :=
  pyOrS o.csv_format arg

/-- Default (subject, body) pair selected by the branch at src/app.py
lines 182-234. -/
def defaultTemplates (fmt : String) (item : String) : String × String :=
  if fmt = "dance_invoice" then (danceSubjectT, danceBodyT)
  else if isWontonItem item then (mealSubjectT, wontonBodyT)
  else (mealSubjectT, plainBodyT)

/-- The `format_dict` of src/app.py lines 239-251: a fixed key set whose
values for `parent_name`, `student_name` and `date_str` depend on which
branch bound the corresponding local variable (`x if 'x' in locals()
else ...`); `invoice_num` and `invoice_desp` evaluate to
`order_number`/`item_name` in every branch.  `firstName` is the local
`full_name` variable after the truncation at line 178 — the dict is
built only when that truncation did not raise. -/
def renderDict (o : Order) (arg : String) (firstName : String) : List (String × String) :=
  let fmt := effFmt o arg
  let dance := fmt = "dance_invoice"
  let wonton := ¬dance ∧ isWontonItem o.item_name
  let fpt := format_pickup_time o.pickup_time
  [("parent_name", if dance then firstName else ""),
   ("student_name", if dance then o.pickup_time else ""),
   ("invoice_num", o.order_number),
   ("invoice_desp", o.item_name),
   ("total", orEmpty o.total),
   ("invoice_url", orEmpty o.invoice_url),
   ("full_name", firstName),
   ("order_number", o.order_number),
   ("item_name", o.item_name),
   ("pickup_time", if fpt ≠ "" then fpt else o.pickup_time),
   ("date_str", if wonton then firstTokOrEmpty o.item_name else "")]

/-- Effective subject template:
`custom_subject if custom_subject else default_subject`. -/
def effSubject (o : Order) (arg : String) : String :=
  pyOrS o.custom_subject (defaultTemplates (effFmt o arg) o.item_name).1

/-- Effective body template. -/
def effBody (o : Order) (arg : String) : String :=
  pyOrS o.custom_body (defaultTemplates (effFmt o arg) o.item_name).2

/-- `send_reminder_email(order_id, csv_format)` (src/app.py lines
159-279).  The function re-fetches the row on a fresh connection — so
it sees only committed data, and a missing row does nothing — then
truncates the name at line 178: an all-whitespace nonempty name raises
an uncaught `IndexError` there, which escapes to the caller with no
write performed.  Otherwise it selects credentials and templates by the
effective format, substitutes the placeholder map into the effective
subject and body (a `format` exception flashes an error and returns
with no send and no status change), and attempts the dispatch: on
transport success the status is set to `sent` and committed, on
transport failure the error is flashed and the row is left untouched.
Note that the stored `status` is never consulted. -/
def send_reminder_email (dispatchOk : Bool) (db : List Order) (order_id : Nat)
    (csv_format : String) : List Order × List Event :=
  match dbGet db order_id with
  | none => (db, [])
  | some o =>
      let fmt := effFmt o csv_format
      let sender := senderFor fmt
      match firstTokenName o.full_name with
      | none => (db, [Event.pyCrash order_id])
      | some firstName =>
          let d := renderDict o csv_format firstName
          match pyFormat (effSubject o csv_format) d with
          | none => (db, [Event.templateError order_id])
          | some subj =>
              match pyFormat (effBody o csv_format) d with
              | none => (db, [Event.templateError order_id])
              | some bod =>
                  if dispatchOk then
                    (dbUpdateStatus db order_id "sent",
                     [Event.dispatched o.email subj bod sender.1 (fmt ≠ "dance_invoice") true])
                  else
                    (db, [Event.dispatched o.email subj bod sender.1 (fmt ≠ "dance_invoice") false,
                          Event.dispatchError order_id])

/- ------------------------------------------------------------------
Timestamps: proleptic Gregorian day count and minutes.
------------------------------------------------------------------ -/

/-- Days from 1 Jan of year 1 to 1 Jan of year `y` (proleptic
Gregorian). -/
def daysBeforeYear (y : Nat) : Nat :=
  365 * (y - 1) + (y - 1) / 4 + (y - 1) / 400 - (y - 1) / 100

/-- Days from 1 Jan to the first day of month `m` in a year with the
given leap flag. -/
def daysBeforeMonth (leap : Bool) (m : Nat) : Nat :=
  let base :=
    match m with
    | 1 => 0 | 2 => 31 | 3 => 59 | 4 => 90 | 5 => 120 | 6 => 151
    | 7 => 181 | 8 => 212 | 9 => 243 | 10 => 273 | 11 => 304 | _ => 334
  if leap ∧ m > 2 then base + 1 else base

/-- Linear day number of a date. -/
def dayNumber (d : PyDate) : Nat :=
  daysBeforeYear d.year + daysBeforeMonth (isLeap d.year) d.month + (d.day - 1)

/-- `datetime.combine(date, time)` as minutes on the linear day count;
subtraction and comparison of the program's timezone-aware datetimes
correspond to `Int` arithmetic on this value. -/
def epochMin (d : PyDate) (t : TimeOfDay) : Int :=
  (dayNumber d : Int) * 1440 + (t.hour : Int) * 60 + (t.minute : Int)

/- ------------------------------------------------------------------
The import route (src/app.py index, lines 350-471).
------------------------------------------------------------------ -/

/-- The per-variant column mappings (src/app.py lines 365-389). -/
def column_mappings : List (String × List (String × String)) :=
  [("familymeal",
    [("email", "Email"), ("order_number", "Order Number"), ("pickup_time", "Pick Up"),
     ("item_name", "Item Name"), ("full_name", "Full Name")]),
   ("wonton",
    [("email", "Billing: E-mail Address"), ("order_number", "Purchase ID"),
     ("pickup_time", "PU Time"), ("item_name", "Order Items: Category"),
     ("full_name", "Billing: Full Name")]),
   ("dance_invoice",
    [("email", "Email"), ("order_number", "invoice_num"), ("pickup_time", "Student_Name"),
     ("item_name", "Invoice desp"), ("full_name", "Parent Name"), ("total", "total"),
     ("invoice_url", "Invoice URL")])]

/-- `column_mappings.get(csv_format, column_mappings['familymeal'])`
(src/app.py line 391): an unrecognized format silently falls back to
the familymeal mapping. -/
def mappingFor (fmt : String) : List (String × String) :=
  match column_mappings.lookup fmt with
  | some m => m
  | none => (column_mappings.lookup "familymeal").getD []

/-- The row inserted by the non-invoice import path (src/app.py lines
439-444): status `pending`, no job yet, no invoice fields. -/
def importedOrder (freshId : Nat) (email order_number pickup_time_str item_name full_name : String)
    (send_time : Int) (custom_subject custom_body : Option String) (csv_format : String) : Order :=
  { id := freshId, email := email, order_number := order_number,
    pickup_time := pickup_time_str, item_name := item_name, full_name := full_name,
    send_time := send_time, status := "pending", job_id := none,
    custom_subject := custom_subject, custom_body := custom_body,
    total := none, invoice_url := none, csv_format := some csv_format }

/-- One non-invoice row of the import loop, after column extraction and
the wonton item-name synthesis (src/app.py lines 430-455): resolve the
pickup date and time, subtract the 4-hour lead, clamp an overdue send
time to `now + 5` minutes, insert the order as `pending`, then either
register a one-shot trigger (send time still in the future at the
second `now()` reading `t2`) or call `send_reminder_email` at once and
unconditionally mark the order `sent`; finally store the job id.
`t1` is the clock at the clamp check (lines 435-437), `t2` the clock at
the scheduling check (line 447); `freshId` is the SERIAL id `RETURNING
id` yields and `freshJob` the APScheduler job id.  The `INSERT` of line
439 is not committed until `conn.commit()` at line 459, and
`send_reminder_email` re-fetches on a fresh connection (line 160) under
READ COMMITTED, so the immediate-send call sees only the committed
store `db` — the new row is invisible to it, and since `freshId` is a
fresh SERIAL value absent from `db`, that call finds no row and returns
without dispatching; line 453 still marks the row `sent`.  A crash
escaping `send_reminder_email` is caught by the per-row `except` at
line 456, skipping the row's remaining UPDATEs. -/
def processRow (cy : Nat) (today : PyDate) (t1 t2 : Int) (dispatchOk : Bool)
    (db : List Order) (jobs : List Job) (freshId freshJob : Nat)
    (csv_format : String) (custom_subject custom_body : Option String)
    (email order_number pickup_time_str item_name full_name : String) :
    List Order × List Job × List Event :=
  let pickup_date := parse_date_from_item_name cy today item_name
  let pickup_time_obj := parse_pickup_time pickup_time_str
  let pickup_datetime := epochMin pickup_date pickup_time_obj
  let send0 := pickup_datetime - 240
  let send_time := if send0 < t1 then t1 + 5 else send0
  let o : Order :=
    importedOrder freshId email order_number pickup_time_str item_name full_name
      send_time custom_subject custom_body csv_format
  if send_time > t2 then
    (dbUpdateJob (o :: db) freshId (some freshJob),
     ⟨freshJob, freshId, send_time, csv_format⟩ :: jobs, [])
  else
    let (db1, ev) := send_reminder_email dispatchOk db freshId csv_format
    if ev.any isCrash then (o :: db1, jobs, ev)
    else
      let db2 := dbUpdateStatus (o :: db1) freshId "sent"
      let db3 := dbUpdateJob db2 freshId none
      (db3, jobs, ev)

/- ------------------------------------------------------------------
delete_order (src/app.py lines 498-516).
------------------------------------------------------------------ -/

/-- Result of an operation that can touch the store, the job queue and
the outside world. -/
structure OpResult where
  db : List Order
  jobs : List Job
  events : List Event
  deriving DecidableEq

/-- `delete_order(order_id)`: fetch the row; if it is pending and has a
job id, best-effort-cancel the trigger; then delete the record. -/
def delete_order (db : List Order) (jobs : List Job) (oid : Nat) : OpResult :=
  match dbGet db oid with
  | some o =>
      match o.job_id with
      | some j =>
          if o.status = "pending" then
            ⟨dbDelete db oid, removeJob jobs j, [Event.cancelJob j, Event.deleteRecord oid]⟩
          else
            ⟨dbDelete db oid, jobs, [Event.deleteRecord oid]⟩
      | none => ⟨dbDelete db oid, jobs, [Event.deleteRecord oid]⟩
  | none => ⟨dbDelete db oid, jobs, [Event.deleteRecord oid]⟩

/- ------------------------------------------------------------------
delete_bulk and send_bulk (src/app.py lines 542-594).
------------------------------------------------------------------ -/

/-- Aggregate result of a bulk route: final store, final job queue, the
counter the route accumulates, the events, and the single flash message
it reports. -/
structure BulkResult where
  db : List Order
  jobs : List Job
  count : Nat
  events : List Event
  flash : String
  deriving DecidableEq

/-- `if status == 'pending' and job_id: scheduler.remove_job(job_id)`
(the guarded trigger cancellation of the bulk-delete loop), returning
the new job queue and the emitted cancellation events. -/
def cancelPendingJob (jobs : List Job) (o : Order) : List Job × List Event :=
  match o.job_id with
  | some j =>
      if o.status = "pending" then (removeJob jobs j, [Event.cancelJob j])
      else (jobs, [])
  | none => (jobs, [])

/-- Loop body of `delete_bulk` (src/app.py lines 548-559): per id,
fetch; a missing id is silently skipped; a pending row with a job gets
its trigger cancelled; the row is deleted and the counter
incremented. -/
def delete_bulk_loop (db : List Order) (jobs : List Job) (count : Nat) :
    List Nat → List Order × List Job × Nat × List Event
  | [] => (db, jobs, count, [])
  | oid :: rest =>
      match dbGet db oid with
      | none => delete_bulk_loop db jobs count rest
      | some o =>
          let p := cancelPendingJob jobs o
          let db' := dbDelete db oid
          let (dbf, jobsf, cf, evf) := delete_bulk_loop db' p.1 (count + 1) rest
          (dbf, jobsf, cf, p.2 ++ Event.deleteRecord oid :: evf)

/-- `delete_bulk` over a list of posted ids; flashes only the deleted
count. -/
def delete_bulk (db : List Order) (jobs : List Job) (ids : List Nat) : BulkResult :=
  let (dbf, jobsf, c, ev) := delete_bulk_loop db jobs 0 ids
  ⟨dbf, jobsf, c, ev, "Deleted " ++ String.mk (natChars c) ++ " orders successfully"⟩

/-- `if job_id: scheduler.remove_job(job_id)` of the bulk-send loop. -/
def cancelJobRef (jobs : List Job) (job_id : Option Nat) : List Job :=
  match job_id with
  | some j => removeJob jobs j
  | none => jobs

/-- Loop body of `send_bulk` (src/app.py lines 572-589): per id, fetch;
a missing id or a non-pending row is silently skipped; otherwise the
trigger (if any) is best-effort-cancelled, `send_reminder_email` is
called with the stored csv format (`None` becomes the falsy empty
string), and the counter incremented whatever the send's outcome.  The
route has no try/except, so an exception escaping
`send_reminder_email` aborts the loop: the remaining ids are not
processed and the flash is never reached. -/
def send_bulk_loop (dispatchOk : Bool) (db : List Order) (jobs : List Job) (count : Nat) :
    List Nat → List Order × List Job × Nat × List Event
  | [] => (db, jobs, count, [])
  | oid :: rest =>
      match dbGet db oid with
      | none => send_bulk_loop dispatchOk db jobs count rest
      | some o =>
          if o.status = "pending" then
            let jobs' := cancelJobRef jobs o.job_id
            let (db', ev) := send_reminder_email dispatchOk db oid (orEmpty o.csv_format)
            if ev.any isCrash then (db', jobs', count + 1, ev)
            else
              let (dbf, jobsf, cf, evf) := send_bulk_loop dispatchOk db' jobs' (count + 1) rest
              (dbf, jobsf, cf, ev ++ evf)
          else send_bulk_loop dispatchOk db jobs count rest

/-- `send_bulk` over a list of posted ids; flashes only the sent
count.  When an uncaught exception escapes the loop the flash line at
app.py:591 is never executed; that suppressed flash is the empty
string here. -/
def send_bulk (dispatchOk : Bool) (db : List Order) (jobs : List Job) (ids : List Nat) :
    BulkResult :=
  let (dbf, jobsf, c, ev) := send_bulk_loop dispatchOk db jobs 0 ids
  ⟨dbf, jobsf, c, ev,
   if ev.any isCrash then ""
   else "Sent " ++ String.mk (natChars c) ++ " emails successfully"⟩

/- ------------------------------------------------------------------
Canonical inputs and concrete instances used by the verification
statements below.
------------------------------------------------------------------ -/

/-- Whether an event is a failed `yag.send` attempt. -/
def isFailedDispatch : Event → Bool
  | .dispatched _ _ _ _ _ ok => !ok
  | _ => false

/-- Canonical `H:MM AM/PM` pickup text. -/
def mkTimeChars (h mm : Nat) (pm : Bool) : List Char :=
  natChars h ++ ':' :: pad2 mm ++ ' ' :: (if pm then ['P', 'M'] else ['A', 'M'])

/-- Canonical `H AM/PM` pickup text. -/
def mkHourChars (h : Nat) (pm : Bool) : List Char :=
  natChars h ++ ' ' :: (if pm then ['P', 'M'] else ['A', 'M'])

/-- The time-of-day a 12-hour clock reading denotes. -/
def canonT (h mm : Nat) (pm : Bool) : TimeOfDay := ⟨hour24 h pm, mm⟩

/-- A stored order that has already been sent (its trigger is gone). -/
def sentOrder : Order :=
  { id := 1, email := "a@b.c", order_number := "17", pickup_time := "4:30 PM",
    item_name := "Meal", full_name := "Al Smith", send_time := 0, status := "sent",
    job_id := none, custom_subject := none, custom_body := none, total := none,
    invoice_url := none, csv_format := some "familymeal" }

/-- A pending order holding an active trigger reference. -/
def pendingOrder : Order :=
  { id := 1, email := "a@b.c", order_number := "17", pickup_time := "4:30 PM",
    item_name := "Meal", full_name := "Al Smith", send_time := 100, status := "pending",
    job_id := some 5, custom_subject := none, custom_body := none, total := none,
    invoice_url := none, csv_format := some "familymeal" }

/-- A pending order whose custom subject references an unknown
placeholder. -/
def badTemplateOrder : Order :=
  { id := 1, email := "a@b.c", order_number := "17", pickup_time := "4:30 PM",
    item_name := "Meal", full_name := "Al Smith", send_time := 100, status := "pending",
    job_id := none, custom_subject := some "Hello \x7bmissing\x7d", custom_body := none,
    total := none, invoice_url := none, csv_format := some "familymeal" }

/-- A pending order whose stored full name is nonempty but all
whitespace (a value a CSV cell can carry verbatim). -/
def crashOrder : Order :=
  { id := 1, email := "a@b.c", order_number := "17", pickup_time := "4:30 PM",
    item_name := "Meal", full_name := " ", send_time := 100, status := "pending",
    job_id := none, custom_subject := some "Hello \x7bmissing\x7d", custom_body := none,
    total := none, invoice_url := none, csv_format := some "familymeal" }

/-- The trigger registered for `pendingOrder`. -/
def pendingJob : Job := ⟨5, 1, 100, "familymeal"⟩

/-- An import-time clock reading strictly after the computed send time
of the row below (the row is overdue at import). -/
def lateClock : Int :=
  epochMin (parse_date_from_item_name 2025 ⟨2025, 9, 1⟩ "Meal") (parse_pickup_time "4:30 PM")

/-- The import-row run for the C2 counterexample: computed send time
4 hours before the pickup datetime, clock strictly past it. -/
def overdueRowRun : List Order × List Job × List Event :=
  processRow 2025 ⟨2025, 9, 1⟩ lateClock lateClock true [] [] 1 7 "familymeal"
    none none "a@b.c" "17" "4:30 PM" "Meal" "Al Smith"

/-- The computed send time of the C7 failing row. -/
def boundarySend : Int :=
  epochMin (parse_date_from_item_name 2025 ⟨2025, 9, 1⟩ "Meal") (parse_pickup_time "4:30 PM") - 240

/-- The import-row run for the C7 failing input: due exactly now, and
the SMTP transport fails. -/
def failedDispatchRun : List Order × List Job × List Event :=
  processRow 2025 ⟨2025, 9, 1⟩ boundarySend boundarySend false [] [] 1 7 "familymeal"
    none none "a@b.c" "17" "4:30 PM" "Meal" "Al Smith"

/- ------------------------------------------------------------------
Helper lemmas about the template engine.
------------------------------------------------------------------ -/

lemma pyFAux_none_of_missing (d : List (String × String)) (f : Nat) (l : List Char) :
    ∀ ns, tpAux f l = some ns →
      ∀ n ∈ ns, d.lookup n = none → pyFAux d f l = none := by
  induction f, l using tpAux.induct with
  | case1 l =>
      intro ns h
      simp [tpAux] at h
  | case2 f =>
      intro ns h n hn _
      simp [tpAux] at h
      subst h
      simp at hn
  | case3 f rest ih =>
      intro ns h n hn hmiss
      rw [tpAux] at h
      simp [pyFAux, ih ns h n hn hmiss]
  | case4 f rest hnb rest2 hdrop ih =>
      intro ns h n hn hmiss
      rw [tpAux] at h
      case x_2 => exact hnb
      rw [hdrop] at h
      simp only [Option.map_eq_some'] at h
      rcases h with ⟨ns', htp, hns⟩
      subst hns
      rw [pyFAux]
      case x_2 => exact hnb
      rw [hdrop]
      rcases hn with _ | ⟨_, hn'⟩
      · simp only [ne_eq, decide_not] at hmiss ⊢
        rw [hmiss]
      · rcases hlk : List.lookup (String.mk (rest.takeWhile (fun c => c ≠ '}'))) d with _ | v
        · simp [hlk]
        · simp [hlk, ih ns' htp n hn' hmiss]
  | case5 f rest hnb hdrop =>
      intro ns h
      rw [tpAux] at h
      case x_2 => exact hnb
      rcases hd : rest.dropWhile (fun c => c ≠ '}') with _ | ⟨c, r⟩
      · rw [hd] at h
        simp at h
      · rw [hd] at h
        by_cases hc : c = '}'
        · subst hc
          exact (hdrop r hd).elim
        · split at h
          · rename_i heq
            injection heq with heq1 _
            exact (hc heq1).elim
          · exact (Option.noConfusion h)
  | case6 f rest ih =>
      intro ns h n hn hmiss
      rw [tpAux] at h
      simp [pyFAux, ih ns h n hn hmiss]
  | case7 f tail hnb =>
      intro ns h
      simp [tpAux] at h
  | case8 f c rest h1 h2 h3 h4 ih =>
      intro ns h n hn hmiss
      rw [tpAux] at h
      case x_2 => exact h1
      case x_3 => exact h2
      case x_4 => exact h3
      case x_5 => exact h4
      rw [pyFAux]
      case x_2 => exact h1
      case x_3 => exact h2
      case x_4 => exact h3
      case x_5 => exact h4
      simp [ih ns h n hn hmiss]

lemma pyFAux_isSome_of_present (d : List (String × String)) (f : Nat) (l : List Char) :
    ∀ ns, tpAux f l = some ns →
      (∀ n ∈ ns, (d.lookup n).isSome) → (pyFAux d f l).isSome := by
  induction f, l using tpAux.induct with
  | case1 l =>
      intro ns h
      simp [tpAux] at h
  | case2 f =>
      intro ns h _
      simp [pyFAux]
  | case3 f rest ih =>
      intro ns h hall
      rw [tpAux] at h
      have := ih ns h hall
      rw [pyFAux]
      simpa using this
  | case4 f rest hnb rest2 hdrop ih =>
      intro ns h hall
      rw [tpAux] at h
      case x_2 => exact hnb
      rw [hdrop] at h
      simp only [Option.map_eq_some'] at h
      rcases h with ⟨ns', htp, hns⟩
      subst hns
      rw [pyFAux]
      case x_2 => exact hnb
      rw [hdrop]
      have hname := hall _ (List.mem_cons_self _ _)
      rcases hlk : List.lookup (String.mk (rest.takeWhile (fun c => c ≠ '}'))) d with _ | v
      · rw [hlk] at hname
        simp at hname
      · have hrest := ih ns' htp (fun n hn => hall n (List.mem_cons_of_mem _ hn))
        simpa using hrest
  | case5 f rest hnb hdrop =>
      intro ns h
      rw [tpAux] at h
      case x_2 => exact hnb
      rcases hd : rest.dropWhile (fun c => c ≠ '}') with _ | ⟨c, r⟩
      · rw [hd] at h
        simp at h
      · rw [hd] at h
        by_cases hc : c = '}'
        · subst hc
          exact (hdrop r hd).elim
        · split at h
          · rename_i heq
            injection heq with heq1 _
            exact (hc heq1).elim
          · exact (Option.noConfusion h)
  | case6 f rest ih =>
      intro ns h hall
      rw [tpAux] at h
      have := ih ns h hall
      rw [pyFAux]
      simpa using this
  | case7 f tail hnb =>
      intro ns h
      simp [tpAux] at h
  | case8 f c rest h1 h2 h3 h4 ih =>
      intro ns h hall
      rw [tpAux] at h
      case x_2 => exact h1
      case x_3 => exact h2
      case x_4 => exact h3
      case x_5 => exact h4
      have := ih ns h hall
      rw [pyFAux]
      case x_2 => exact h1
      case x_3 => exact h2
      case x_4 => exact h3
      case x_5 => exact h4
      simpa using this

/-- A template whose field-name list contains a name absent from the
map makes `format` raise. -/
lemma pyFormat_none_of_missing (t : String) (d : List (String × String))
    (ns : List String) (n : String) (h : templatePlaceholders t = some ns)
    (hn : n ∈ ns) (hmiss : d.lookup n = none) : pyFormat t d = none := by
  unfold pyFormat
  rw [pyFAux_none_of_missing d _ _ ns h n hn hmiss]
  rfl

/-- A template all of whose field names are present in the map formats
successfully. -/
lemma pyFormat_isSome_of_present (t : String) (d : List (String × String))
    (ns : List String) (h : templatePlaceholders t = some ns)
    (hall : ∀ n ∈ ns, (d.lookup n).isSome) : (pyFormat t d).isSome := by
  unfold pyFormat
  have := pyFAux_isSome_of_present d _ _ ns h hall
  simpa using this

/- ------------------------------------------------------------------
Helper lemmas about decimal rendering and strptime on rendered digits.
------------------------------------------------------------------ -/

lemma natCharsCore_acc (f : Nat) : ∀ n acc, natCharsCore f n acc = natCharsCore f n [] ++ acc := by
  induction f with
  | zero => intro n acc; simp [natCharsCore]
  | succ f ih =>
      intro n acc
      by_cases h : n < 10
      · simp [natCharsCore, h]
      · simp only [natCharsCore, if_neg h]
        rw [ih (n / 10) (digitChar (n % 10) :: acc), ih (n / 10) [digitChar (n % 10)]]
        simp

lemma natCharsCore_fuel : ∀ n, ∀ f acc, n < f → natCharsCore f n acc = natCharsCore (n + 1) n acc := by
  intro n
  induction n using Nat.strong_induction_on with
  | _ n ih =>
      intro f acc hf
      match f, hf with
      | f + 1, hf =>
          by_cases h : n < 10
          · simp [natCharsCore, h]
          · simp only [natCharsCore, if_neg h]
            have hlt : n / 10 < n := Nat.div_lt_self (by omega) (by omega)
            rw [ih (n / 10) hlt f _ (by omega), ih (n / 10) hlt n _ (by omega)]

/-- Unfolding equation of `natChars` in terms of itself. -/
lemma natChars_eq (n : Nat) :
    natChars n = if n < 10 then [digitChar n] else natChars (n / 10) ++ [digitChar (n % 10)] := by
  by_cases h : n < 10
  · simp [natChars, natCharsCore, h]
  · have hlt : n / 10 < n := Nat.div_lt_self (by omega) (by omega)
    have step : natChars n = natCharsCore n (n / 10) [digitChar (n % 10)] := by
      show natCharsCore (n + 1) n [] = _
      rw [natCharsCore, if_neg h]
    rw [step, natCharsCore_acc, natCharsCore_fuel (n / 10) n [] hlt, if_neg h]
    rfl

lemma natChars_small {n : Nat} (h : n < 10) : natChars n = [digitChar n] := by
  rw [natChars_eq, if_pos h]

lemma natChars_two {n : Nat} (h1 : 10 ≤ n) (h2 : n < 100) :
    natChars n = [digitChar (n / 10), digitChar (n % 10)] := by
  rw [natChars_eq, if_neg (by omega), natChars_small (by omega)]
  rfl

lemma natChars_three {n : Nat} (h1 : 100 ≤ n) (h2 : n < 1000) :
    natChars n = [digitChar (n / 100), digitChar (n / 10 % 10), digitChar (n % 10)] := by
  rw [natChars_eq, if_neg (by omega), natChars_two (by omega) (by omega)]
  rw [Nat.div_div_eq_div_mul]
  rfl

lemma natChars_four {n : Nat} (h1 : 1000 ≤ n) (h2 : n ≤ 9999) :
    natChars n = [digitChar (n / 1000), digitChar (n / 100 % 10),
      digitChar (n / 10 % 10), digitChar (n % 10)] := by
  rw [natChars_eq, if_neg (by omega), natChars_three (by omega) (by omega)]
  rw [Nat.div_div_eq_div_mul]
  have : n / 10 / 10 % 10 = n / 100 % 10 := by rw [Nat.div_div_eq_div_mul]
  rw [this]
  rfl

lemma isDigit_digitChar {k : Nat} (h : k < 10) : (digitChar k).isDigit = true := by
  interval_cases k <;> decide

lemma charVal_digitChar {k : Nat} (h : k < 10) : charVal (digitChar k) = k := by
  interval_cases k <;> decide

lemma readY4_natChars {y : Nat} (h1 : 1000 ≤ y) (h2 : y ≤ 9999) :
    readY4 (natChars y) = some (y, []) := by
  rw [natChars_four h1 h2]
  rw [readY4]
  rw [if_pos]
  · have e1 : charVal (digitChar (y / 1000)) = y / 1000 := charVal_digitChar (by omega)
    have e2 : charVal (digitChar (y / 100 % 10)) = y / 100 % 10 := charVal_digitChar (by omega)
    have e3 : charVal (digitChar (y / 10 % 10)) = y / 10 % 10 := charVal_digitChar (by omega)
    have e4 : charVal (digitChar (y % 10)) = y % 10 := charVal_digitChar (by omega)
    simp [valDigits, e1, e2, e3, e4]
    omega
  · refine ⟨isDigit_digitChar (by omega), isDigit_digitChar (by omega),
      isDigit_digitChar (by omega), isDigit_digitChar (by omega)⟩

lemma readMonth_natChars {m : Nat} (r : List Char) (h1 : 1 ≤ m) (h2 : m ≤ 12) :
    readMonth (natChars m ++ '/' :: r) = some (m, '/' :: r) := by
  interval_cases m <;> rfl

lemma readDay_natChars_slash {d : Nat} (r : List Char) (h1 : 1 ≤ d) (h2 : d ≤ 31) :
    readDay (natChars d ++ '/' :: r) = some (d, '/' :: r) := by
  interval_cases d <;> rfl

lemma readDay_natChars_end {d : Nat} (h1 : 1 ≤ d) (h2 : d ≤ 31) :
    readDay (natChars d) = some (d, []) := by
  interval_cases d <;> rfl

lemma daysInMonth_le_31 (y m : Nat) : daysInMonth y m ≤ 31 := by
  unfold daysInMonth
  split
  · split <;> omega
  · split <;> omega

/-- `strptime("%m/%d/%Y")` on the canonical digits of a valid date. -/
lemma strpMDY_natChars {m d y : Nat} (hm1 : 1 ≤ m) (hm2 : m ≤ 12)
    (hd1 : 1 ≤ d) (hd2 : d ≤ daysInMonth y m) (hy1 : 1000 ≤ y) (hy2 : y ≤ 9999) :
    strpMDY ((natChars m ++ '/' :: natChars d) ++ '/' :: natChars y) = some ⟨y, m, d⟩ := by
  have hd31 : d ≤ 31 := le_trans hd2 (daysInMonth_le_31 y m)
  unfold strpMDY
  rw [List.append_assoc, List.cons_append]
  rw [readMonth_natChars _ hm1 hm2]
  simp only []
  rw [readDay_natChars_slash _ hd1 hd31]
  simp only []
  rw [readY4_natChars hy1 hy2]
  simp only []
  rw [if_pos ⟨by omega, hd2⟩]

/- ------------------------------------------------------------------
Helper lemmas about the numeric date search.
------------------------------------------------------------------ -/

lemma grabDigits2_slash {d : Nat} (r : List Char) (h1 : 1 ≤ d) (h2 : d ≤ 31) :
    grabDigits2 (natChars d ++ '/' :: r) = some (natChars d, '/' :: r) := by
  interval_cases d <;> rfl

lemma grabDigits2_stop {d : Nat} (post : List Char) (h1 : 1 ≤ d) (h2 : d ≤ 31)
    (hpost : post = [] ∨ ∃ c p', post = c :: p' ∧ c.isDigit = false) :
    grabDigits2 (natChars d ++ post) = some (natChars d, post) := by
  rcases hpost with rfl | ⟨c, p', rfl, hc⟩
  · interval_cases d <;> rfl
  · interval_cases d <;> simp [natChars, natCharsCore, grabDigits2, hc] <;> decide

lemma matchTail_hit_year (mt : List Char) {d y : Nat} (post : List Char)
    (hd1 : 1 ≤ d) (hd2 : d ≤ 31) (hy1 : 1000 ≤ y) (hy2 : y ≤ 9999) :
    matchTail mt ('/' :: (natChars d ++ '/' :: (natChars y ++ post))) =
      some (mt ++ '/' :: natChars d, some ('/' :: natChars y)) := by
  rw [matchTail]
  rw [grabDigits2_slash _ hd1 hd2]
  simp only []
  rw [natChars_four hy1 hy2]
  simp only [List.cons_append, List.nil_append]
  rw [if_pos]
  case hc =>
    exact ⟨isDigit_digitChar (by omega), isDigit_digitChar (by omega),
      isDigit_digitChar (by omega), isDigit_digitChar (by omega)⟩

lemma matchTail_hit_noyear (mt : List Char) {d : Nat} (post : List Char)
    (hd1 : 1 ≤ d) (hd2 : d ≤ 31)
    (hpost : post = [] ∨ ∃ c p', post = c :: p' ∧ c.isDigit = false ∧ c ≠ '/') :
    matchTail mt ('/' :: (natChars d ++ post)) = some (mt ++ '/' :: natChars d, none) := by
  rw [matchTail]
  have hpost' : post = [] ∨ ∃ c p', post = c :: p' ∧ c.isDigit = false := by
    rcases hpost with h | ⟨c, p', h, hcd, _⟩
    · exact Or.inl h
    · exact Or.inr ⟨c, p', h, hcd⟩
  rw [grabDigits2_stop post hd1 hd2 hpost']
  simp only []
  rcases hpost with rfl | ⟨c, p', rfl, hcd, hcs⟩
  · rfl
  · split
    · rename_i heq
      injection heq with heq1 _
      exact (hcs heq1).elim
    · rfl

lemma matchAt_natChars {m : Nat} (X A : List Char) (B : Option (List Char))
    (hm1 : 1 ≤ m) (hm2 : m ≤ 12)
    (htail : ∀ mt, matchTail mt ('/' :: X) = some (mt ++ A, B)) :
    matchAt (natChars m ++ '/' :: X) = some (natChars m ++ A, B) := by
  by_cases hm : m < 10
  · rw [natChars_small hm]
    simp only [List.cons_append, List.nil_append]
    rw [matchAt]
    rw [if_neg (by simp), if_pos (isDigit_digitChar hm)]
    rw [htail [digitChar m]]
    rfl
  · rw [natChars_two (by omega) (by omega)]
    simp only [List.cons_append, List.nil_append]
    rw [matchAt]
    rw [if_pos ⟨isDigit_digitChar (by omega), isDigit_digitChar (by omega)⟩]
    rw [htail [digitChar (m / 10), digitChar (m % 10)]]
    rfl

lemma matchAt_none_head {c : Char} (r : List Char) (hc : c.isDigit = false) :
    matchAt (c :: r) = none := by
  cases r with
  | nil => simp [matchAt, hc]
  | cons c2 r2 => simp [matchAt, hc]

lemma searchMD_skip (pre l : List Char) (hpre : ∀ c ∈ pre, c.isDigit = false) :
    searchMD (pre ++ l) = searchMD l := by
  induction pre with
  | nil => rfl
  | cons p pre' ih =>
      rw [List.cons_append, searchMD,
        matchAt_none_head _ (hpre p (List.mem_cons_self _ _))]
      exact ih (fun c hc => hpre c (List.mem_cons_of_mem _ hc))

lemma searchMD_of_matchAt {l : List Char} {r : List Char × Option (List Char)}
    (h : matchAt l = some r) : searchMD l = some r := by
  cases l with
  | nil => simp [matchAt] at h
  | cons c rest => rw [searchMD, h]

lemma matchTail_slash {mt l : List Char} {r : List Char × Option (List Char)}
    (h : matchTail mt l = some r) : '/' ∈ l := by
  rw [matchTail.eq_def] at h
  split at h
  · exact List.mem_cons_self _ _
  · exact absurd h (by simp)

lemma matchAt_slash {l : List Char} {r : List Char × Option (List Char)}
    (h : matchAt l = some r) : '/' ∈ l := by
  rw [matchAt.eq_def] at h
  split at h
  · rename_i c1 c2 rest
    split at h
    · split at h
      · rename_i r' hmt
        exact List.mem_cons_of_mem _ (List.mem_cons_of_mem _ (matchTail_slash hmt))
      · exact List.mem_cons_of_mem _ (matchTail_slash h)
    · split at h
      · exact List.mem_cons_of_mem _ (matchTail_slash h)
      · exact absurd h (by simp)
  · split at h
    · exact absurd (matchTail_slash h) (by simp)
    · exact absurd h (by simp)
  · exact absurd h (by simp)

lemma searchMD_none_of_no_slash (l : List Char) (h : '/' ∉ l) : searchMD l = none := by
  induction l with
  | nil => rfl
  | cons c rest ih =>
      rw [searchMD]
      cases hm : matchAt (c :: rest) with
      | some r => exact absurd (matchAt_slash hm) h
      | none => exact ih (fun hh => h (List.mem_cons_of_mem _ hh))

lemma toList_mk (l : List Char) : (String.mk l).toList = l := rfl

/-- The numeric branch with an explicit year: the current year and
today's date are irrelevant to the result. -/
lemma parse_date_hit_year (cy : Nat) (today : PyDate) (pre post : List Char) {m d y : Nat}
    (hpre : ∀ c ∈ pre, c.isDigit = false)
    (hm1 : 1 ≤ m) (hm2 : m ≤ 12) (hd1 : 1 ≤ d) (hd2 : d ≤ daysInMonth y m)
    (hy1 : 1000 ≤ y) (hy2 : y ≤ 9999) :
    parse_date_from_item_name cy today
      (String.mk (pre ++ (natChars m ++ '/' :: (natChars d ++ '/' :: (natChars y ++ post))))) =
      ⟨y, m, d⟩ := by
  have hd31 : d ≤ 31 := le_trans hd2 (daysInMonth_le_31 y m)
  unfold parse_date_from_item_name
  rw [toList_mk, searchMD_skip pre _ hpre,
    searchMD_of_matchAt (matchAt_natChars _ _ _ hm1 hm2
      (fun mt => matchTail_hit_year mt post hd1 hd31 hy1 hy2))]
  simp only [List.drop_succ_cons, List.drop_zero]
  rw [strpMDY_natChars hm1 hm2 hd1 hd2 hy1 hy2]

/-- The numeric branch without a year: the current local year is
substituted. -/
lemma parse_date_hit_noyear (cy : Nat) (today : PyDate) (pre post : List Char) {m d : Nat}
    (hpre : ∀ c ∈ pre, c.isDigit = false)
    (hpost : post = [] ∨ ∃ c p', post = c :: p' ∧ c.isDigit = false ∧ c ≠ '/')
    (hm1 : 1 ≤ m) (hm2 : m ≤ 12) (hd1 : 1 ≤ d) (hd2 : d ≤ daysInMonth cy m)
    (hcy1 : 1000 ≤ cy) (hcy2 : cy ≤ 9999) :
    parse_date_from_item_name cy today
      (String.mk (pre ++ (natChars m ++ '/' :: (natChars d ++ post)))) =
      ⟨cy, m, d⟩ := by
  have hd31 : d ≤ 31 := le_trans hd2 (daysInMonth_le_31 cy m)
  unfold parse_date_from_item_name
  rw [toList_mk, searchMD_skip pre _ hpre,
    searchMD_of_matchAt (matchAt_natChars _ _ _ hm1 hm2
      (fun mt => matchTail_hit_noyear mt post hd1 hd31 hpost))]
  simp only []
  rw [strpMDY_natChars hm1 hm2 hd1 hd2 hcy1 hcy2]

lemma parse_date_aug_1900 (cy : Nat) (today : PyDate) (d : Nat) (h1 : 1 ≤ d) (h2 : d ≤ 31) :
    parse_date_from_item_name cy today
      (String.mk ('A' :: 'u' :: 'g' :: ' ' :: natChars d)) = ⟨1900, 8, d⟩ := by
  interval_cases d <;> rfl

lemma parse_date_fallback_today (cy : Nat) (today : PyDate) :
    parse_date_from_item_name cy today "Family Meal" = today := rfl

/- ==================================================================
Claim theorems.
================================================================== -/

/-- C3, counterexample: the label-prefixed pickup text
`"Lunch: 11:00PM-2:00PM"` does *not* resolve to the time-of-day 23:00
claimed by the specification. -/
theorem label_prefixed_range_not_2300 :
    parse_pickup_time "Lunch: 11:00PM-2:00PM" ≠ ⟨23, 0⟩ := by decide

/-- C3 (amended): the label is never stripped — the character filter
leaves the label's colon in place (and removes the range hyphen before
the range split looks for it), so `strptime` fails on the residue
`": 11:00 PM2:00 PM"` and the resolver returns the midnight sentinel
`00:00`. -/
theorem label_prefixed_range_resolves_to_sentinel :
    parse_pickup_time "Lunch: 11:00PM-2:00PM" = ⟨0, 0⟩ := by decide

/-- C4, counterexample: with current year 2025, the month-name
description `"Aug 24"` resolves to `(1900, 8, 24)` — `strptime`'s
default year — not `(2025, 8, 24)` as the claim's
"current year used when the year is absent" requires. -/
theorem month_name_layout_uses_1900_not_current_year :
    parse_date_from_item_name 2025 ⟨2025, 10, 12⟩ "Aug 24" = ⟨1900, 8, 24⟩ ∧
      (⟨1900, 8, 24⟩ : PyDate) ≠ (⟨2025, 8, 24⟩ : PyDate) :=
  ⟨rfl, by decide⟩

/-- C4 (amended): (1) a description carrying a valid `M/D/YYYY` pattern
(leftmost, after a digit-free prefix) resolves to exactly
`(YYYY, M, D)` — the universally quantified `cy`/`today` do not appear
in the result, so the current year is irrelevant; (2) a valid `M/D`
pattern not directly followed by a digit or a slash resolves to
`(current year, M, D)`; (3) if no numeric pattern matches, the short
month-name layout is tried with `strptime`'s default year 1900 (not the
current year); (4) otherwise the result falls back to today's local
date. -/
theorem date_extraction_behaviour :
    (∀ (cy : Nat) (today : PyDate) (pre post : List Char) (m d y : Nat),
        (∀ c ∈ pre, c.isDigit = false) → 1 ≤ m → m ≤ 12 → 1 ≤ d → d ≤ daysInMonth y m →
        1000 ≤ y → y ≤ 9999 →
        parse_date_from_item_name cy today
          (String.mk (pre ++ (natChars m ++ '/' :: (natChars d ++ '/' :: (natChars y ++ post))))) =
          ⟨y, m, d⟩) ∧
    (∀ (cy : Nat) (today : PyDate) (pre post : List Char) (m d : Nat),
        (∀ c ∈ pre, c.isDigit = false) →
        (post = [] ∨ ∃ c p', post = c :: p' ∧ c.isDigit = false ∧ c ≠ '/') →
        1 ≤ m → m ≤ 12 → 1 ≤ d → d ≤ daysInMonth cy m → 1000 ≤ cy → cy ≤ 9999 →
        parse_date_from_item_name cy today
          (String.mk (pre ++ (natChars m ++ '/' :: (natChars d ++ post)))) = ⟨cy, m, d⟩) ∧
    (∀ (cy : Nat) (today : PyDate) (d : Nat), 1 ≤ d → d ≤ 31 →
        parse_date_from_item_name cy today
          (String.mk ('A' :: 'u' :: 'g' :: ' ' :: natChars d)) = ⟨1900, 8, d⟩) ∧
    (∀ (cy : Nat) (today : PyDate),
        parse_date_from_item_name cy today "Family Meal" = today) :=
  ⟨fun cy today pre post _ _ _ hpre hm1 hm2 hd1 hd2 hy1 hy2 =>
      parse_date_hit_year cy today pre post hpre hm1 hm2 hd1 hd2 hy1 hy2,
   fun cy today pre post _ _ hpre hpost hm1 hm2 hd1 hd2 hc1 hc2 =>
      parse_date_hit_noyear cy today pre post hpre hpost hm1 hm2 hd1 hd2 hc1 hc2,
   fun cy today d h1 h2 => parse_date_aug_1900 cy today d h1 h2,
   fun cy today => parse_date_fallback_today cy today⟩

/-- Witness for the amended C4 theorem at the specification's own
examples: `"6/30/2025 Item"` with current year 2024 gives
`(2025, 6, 30)`; `"on 8/18 Family Meal"` with current year 2025 gives
`(2025, 8, 18)`; `"Aug 24"` gives year 1900; `"Family Meal"` falls back
to today. -/
theorem date_extraction_behaviour_witness :
    parse_date_from_item_name 2024 ⟨2024, 1, 1⟩
      (String.mk ([] ++ (natChars 6 ++ '/' :: (natChars 30 ++ '/' :: (natChars 2025 ++ (' ' :: 'I' :: 't' :: 'e' :: 'm' :: [])))))) =
      ⟨2025, 6, 30⟩ ∧
    parse_date_from_item_name 2025 ⟨2025, 10, 12⟩
      (String.mk (('o' :: 'n' :: ' ' :: []) ++ (natChars 8 ++ '/' :: (natChars 18 ++ (' ' :: 'F' :: 'M' :: []))))) =
      ⟨2025, 8, 18⟩ ∧
    parse_date_from_item_name 2025 ⟨2025, 10, 12⟩
      (String.mk ('A' :: 'u' :: 'g' :: ' ' :: natChars 24)) = ⟨1900, 8, 24⟩ ∧
    parse_date_from_item_name 2025 ⟨2025, 10, 12⟩ "Family Meal" = ⟨2025, 10, 12⟩ :=
  ⟨date_extraction_behaviour.1 2024 ⟨2024, 1, 1⟩ [] (' ' :: 'I' :: 't' :: 'e' :: 'm' :: [])
      6 30 2025 (by decide) (by decide) (by decide) (by decide) (by decide) (by decide) (by decide),
   date_extraction_behaviour.2.1 2025 ⟨2025, 10, 12⟩ ('o' :: 'n' :: ' ' :: [])
      (' ' :: 'F' :: 'M' :: []) 8 18 (by decide)
      (Or.inr ⟨' ', 'F' :: 'M' :: [], rfl, by decide, by decide⟩)
      (by decide) (by decide) (by decide) (by decide) (by decide) (by decide),
   date_extraction_behaviour.2.2.1 2025 ⟨2025, 10, 12⟩ 24 (by decide) (by decide),
   date_extraction_behaviour.2.2.2 2025 ⟨2025, 10, 12⟩⟩

/-- C1 (code-bug evidence): `send_reminder_email` never re-checks the
stored status — fired for an order already in status `sent`, it
performs a dispatch anyway instead of the claimed no-op. -/
theorem fire_dispatches_for_sent_order :
    sentOrder.status = "sent" ∧
    (send_reminder_email true [sentOrder] 1 "familymeal").2.any isDispatch = true := by
  decide

/-- C2, counterexample: an imported non-invoice row whose computed send
time is strictly before the import-time clock is *not* sent
immediately: the code clamps the send time to `now + 5` minutes and
registers a trigger, leaving the order `pending` with no dispatch. -/
theorem overdue_import_row_rescheduled_not_sent :
    boundarySend < lateClock ∧
    (dbGet overdueRowRun.1 1).map Order.status = some "pending" ∧
    (dbGet overdueRowRun.1 1).map Order.status ≠ some "sent" ∧
    overdueRowRun.2.1 ≠ [] ∧
    overdueRowRun.2.2 = [] := by
  decide

/-- C7 (code-bug evidence): on the import-time immediate-send path no
dispatch is attempted at all — the row's INSERT is not yet committed,
so `send_reminder_email`'s fresh connection finds no visible row — yet
the row is marked `sent` unconditionally (src/app.py line 453) with no
error surfaced; sending the very same order through the direct path
with a failing transport keeps it `pending` and flashes the dispatch
failure, showing the import-path `sent` mark is backed by no send. -/
theorem import_immediate_send_marks_sent_without_dispatch :
    (dbGet failedDispatchRun.1 1).map Order.status = some "sent" ∧
    failedDispatchRun.2.2 = [] ∧
    (send_reminder_email false [pendingOrder] 1 "familymeal").1 = [pendingOrder] ∧
    (send_reminder_email false [pendingOrder] 1 "familymeal").2.any isFailedDispatch = true ∧
    (send_reminder_email false [pendingOrder] 1 "familymeal").2.any
      (fun e => e = Event.dispatchError 1) = true := by
  decide

set_option maxHeartbeats 4000000 in
/-- C5: for every valid `H:MM AM/PM` and `H AM/PM` pickup text, the
resolver parses it to the denoted time of day, and re-parsing the
display formatter's output yields the same hour and minute (the
round-trip of normalize → parse → format). -/
theorem pickup_time_round_trip :
    ∀ h : Nat, h < 13 → ∀ mm : Nat, mm < 60 → ∀ pm : Bool, 1 ≤ h →
      (parse_pickup_time (String.mk (mkTimeChars h mm pm)) = canonT h mm pm ∧
       parse_pickup_time (format_pickup_time (String.mk (mkTimeChars h mm pm))) = canonT h mm pm ∧
       parse_pickup_time (String.mk (mkHourChars h pm)) = canonT h 0 pm ∧
       parse_pickup_time (format_pickup_time (String.mk (mkHourChars h pm))) = canonT h 0 pm) := by
  decide

/-- Witness for the round-trip theorem at `"4:30 PM"` / `"4 PM"`. -/
theorem pickup_time_round_trip_witness :
    parse_pickup_time (String.mk (mkTimeChars 4 30 true)) = canonT 4 30 true ∧
    parse_pickup_time (format_pickup_time (String.mk (mkTimeChars 4 30 true))) = canonT 4 30 true ∧
    parse_pickup_time (String.mk (mkHourChars 4 true)) = canonT 4 0 true ∧
    parse_pickup_time (format_pickup_time (String.mk (mkHourChars 4 true))) = canonT 4 0 true :=
  pickup_time_round_trip 4 (by decide) 30 (by decide) true (by decide)

lemma send_reminder_email_absent (ok : Bool) (db : List Order) (oid : Nat) (fmt : String)
    (h : dbGet db oid = none) : send_reminder_email ok db oid fmt = (db, []) := by
  unfold send_reminder_email
  rw [h]

lemma dbGet_delete_self (db : List Order) (oid : Nat) : dbGet (dbDelete db oid) oid = none := by
  refine List.find?_eq_none.2 (fun o ho => ?_)
  have := List.of_mem_filter ho
  simp only [bne_iff_ne, ne_eq] at this
  simp [this]

/-- C6, counterexample: a stored `full_name` that is nonempty but all
whitespace — a value a CSV cell can carry verbatim — makes the name
truncation `full_name.split()[0]` at src/app.py line 178 raise an
uncaught `IndexError`: `send_reminder_email` crashes its caller before
the templates are even examined, so an order that also carries an
unknown placeholder never reaches the flashed template error.  This
refutes the claim's `the caller does not crash` conjunct. -/
theorem whitespace_name_crashes_before_template_error :
    crashOrder.full_name ≠ "" ∧
    templatePlaceholders (effSubject crashOrder "familymeal") = some ["missing"] ∧
    send_reminder_email true [crashOrder] 1 "familymeal" =
      ([crashOrder], [Event.pyCrash 1]) ∧
    send_reminder_email true [crashOrder] 1 "familymeal" ≠
      ([crashOrder], [Event.templateError 1]) := by
  decide

/-- C6 (amended): provided the name truncation at line 178 returns —
the stored `full_name` is empty or contains a whitespace-delimited
first token; a nonempty all-whitespace name instead raises an uncaught
`IndexError` — an effective subject or body template referencing a
placeholder absent from the placeholder map makes `send_reminder_email`
flash a template error and return: no dispatch happens, the store — and
with it the order's `pending` status — is untouched, and the caller
sees an ordinary return value rather than an exception. -/
theorem unknown_placeholder_template_error (ok : Bool) (db : List Order) (oid : Nat)
    (o : Order) (arg : String) (ns : List String) (n firstName : String)
    (hget : dbGet db oid = some o) (hpending : o.status = "pending")
    (hname : firstTokenName o.full_name = some firstName)
    (href : (templatePlaceholders (effSubject o arg) = some ns ∧ n ∈ ns) ∨
            (templatePlaceholders (effBody o arg) = some ns ∧ n ∈ ns))
    (hmiss : (renderDict o arg firstName).lookup n = none) :
    send_reminder_email ok db oid arg = (db, [Event.templateError oid]) ∧
    (¬ ∃ e ∈ (send_reminder_email ok db oid arg).2, isDispatch e = true) ∧
    (dbGet db oid).map Order.status = some "pending" := by
  have hmain : send_reminder_email ok db oid arg = (db, [Event.templateError oid]) := by
    unfold send_reminder_email
    rw [hget]
    simp only []
    rw [hname]
    simp only []
    rcases href with ⟨htp, hn⟩ | ⟨htp, hn⟩
    · rw [pyFormat_none_of_missing _ _ ns n htp hn hmiss]
    · rcases hsub : pyFormat (effSubject o arg) (renderDict o arg firstName) with _ | subj
      · rfl
      · rw [pyFormat_none_of_missing _ _ ns n htp hn hmiss]
  refine ⟨hmain, ?_, ?_⟩
  · rw [hmain]
    rintro ⟨e, he, hde⟩
    simp at he
    subst he
    simp [isDispatch] at hde
  · rw [hget]
    simp [hpending]

/-- Witness for C6: a pending order whose custom subject is
`"Hello {missing}"` and whose name truncates to `"Al"`. -/
theorem unknown_placeholder_template_error_witness :
    send_reminder_email true [badTemplateOrder] 1 "familymeal" =
      ([badTemplateOrder], [Event.templateError 1]) ∧
    (¬ ∃ e ∈ (send_reminder_email true [badTemplateOrder] 1 "familymeal").2,
        isDispatch e = true) ∧
    (dbGet [badTemplateOrder] 1).map Order.status = some "pending" :=
  unknown_placeholder_template_error true [badTemplateOrder] 1 badTemplateOrder
    "familymeal" ["missing"] "missing" "Al" (by decide) (by decide) (by decide)
    (Or.inl ⟨by decide, by decide⟩) (by decide)

/-- C8: deleting a pending order with an active trigger first requests
the trigger's cancellation and then removes the record (in that event
order); afterwards the record is gone, no job with that trigger
reference remains, and a later fire of the trigger for that id finds no
row and dispatches nothing. -/
theorem delete_cancels_trigger_then_removes (db : List Order) (jobs : List Job)
    (oid : Nat) (o : Order) (j : Nat)
    (hget : dbGet db oid = some o) (hpending : o.status = "pending")
    (hjob : o.job_id = some j) :
    (delete_order db jobs oid).events = [Event.cancelJob j, Event.deleteRecord oid] ∧
    dbGet (delete_order db jobs oid).db oid = none ∧
    (∀ jb ∈ (delete_order db jobs oid).jobs, jb.jobId ≠ j) ∧
    (∀ ok fmt, send_reminder_email ok (delete_order db jobs oid).db oid fmt =
        ((delete_order db jobs oid).db, [])) := by
  have hro : delete_order db jobs oid =
      ⟨dbDelete db oid, removeJob jobs j, [Event.cancelJob j, Event.deleteRecord oid]⟩ := by
    unfold delete_order
    rw [hget]
    simp only []
    rw [hjob]
    simp only []
    rw [if_pos hpending]
  rw [hro]
  refine ⟨rfl, dbGet_delete_self db oid, ?_, ?_⟩
  · intro jb hjb
    have := List.of_mem_filter hjb
    simpa using this
  · intro ok fmt
    exact send_reminder_email_absent ok _ oid fmt (dbGet_delete_self db oid)

/-- Witness for C8 at a concrete pending order with trigger 5. -/
theorem delete_cancels_trigger_then_removes_witness :
    (delete_order [pendingOrder] [pendingJob] 1).events =
      [Event.cancelJob 5, Event.deleteRecord 1] ∧
    dbGet (delete_order [pendingOrder] [pendingJob] 1).db 1 = none ∧
    (∀ jb ∈ (delete_order [pendingOrder] [pendingJob] 1).jobs, jb.jobId ≠ 5) ∧
    (∀ ok fmt, send_reminder_email ok (delete_order [pendingOrder] [pendingJob] 1).db 1 fmt =
        ((delete_order [pendingOrder] [pendingJob] 1).db, [])) :=
  delete_cancels_trigger_then_removes [pendingOrder] [pendingJob] 1 pendingOrder 5
    (by decide) (by decide) (by decide)

lemma renderDict_has_standard (o : Order) (arg firstName : String) :
    ∀ n ∈ ["parent_name", "student_name", "invoice_num", "invoice_desp", "total",
           "invoice_url", "full_name", "order_number", "item_name", "pickup_time",
           "date_str"],
      ((renderDict o arg firstName).lookup n).isSome := by
  intro n hn
  fin_cases hn <;> rfl

lemma render_default_subject_some (o : Order) (arg firstName : String) :
    (pyFormat (defaultTemplates (effFmt o arg) o.item_name).1 (renderDict o arg firstName)).isSome := by
  unfold defaultTemplates
  split
  · exact pyFormat_isSome_of_present _ _ ["invoice_desp", "student_name", "invoice_num"]
      (by decide) (fun n hn => by fin_cases hn <;> rfl)
  · split
    · exact pyFormat_isSome_of_present _ _ ["item_name", "order_number"]
        (by decide) (fun n hn => by fin_cases hn <;> rfl)
    · exact pyFormat_isSome_of_present _ _ ["item_name", "order_number"]
        (by decide) (fun n hn => by fin_cases hn <;> rfl)

lemma render_default_body_some (o : Order) (arg firstName : String) :
    (pyFormat (defaultTemplates (effFmt o arg) o.item_name).2 (renderDict o arg firstName)).isSome := by
  unfold defaultTemplates
  split
  · exact pyFormat_isSome_of_present _ _
      ["parent_name", "student_name", "invoice_desp", "total", "invoice_url", "invoice_num"]
      (by decide) (fun n hn => by fin_cases hn <;> rfl)
  · split
    · exact pyFormat_isSome_of_present _ _ ["full_name", "date_str", "pickup_time"]
        (by decide) (fun n hn => by fin_cases hn <;> rfl)
    · exact pyFormat_isSome_of_present _ _ ["full_name", "item_name", "pickup_time"]
        (by decide) (fun n hn => by fin_cases hn <;> rfl)

lemma dbGet_cons_self (o : Order) (db : List Order) : dbGet (o :: db) o.id = some o := by
  simp [dbGet, List.find?]

lemma dbGet_updateStatus_self (db : List Order) (oid : Nat) (st : String) :
    dbGet (dbUpdateStatus db oid st) oid =
      (dbGet db oid).map (fun o => { o with status := st }) := by
  induction db with
  | nil => rfl
  | cons o db ih =>
      simp only [dbUpdateStatus, List.map_cons]
      unfold dbGet at ih ⊢
      by_cases h : (o.id == oid) = true
      · rw [if_pos h]
        simp only [List.find?_cons]
        rw [h]
        rfl
      · have hb : (o.id == oid) = false := by simpa using h
        rw [if_neg h]
        simp only [List.find?_cons]
        rw [hb]
        simpa [dbUpdateStatus] using ih

lemma dbGet_updateJob_self (db : List Order) (oid : Nat) (j : Option Nat) :
    dbGet (dbUpdateJob db oid j) oid =
      (dbGet db oid).map (fun o => { o with job_id := j }) := by
  induction db with
  | nil => rfl
  | cons o db ih =>
      simp only [dbUpdateJob, List.map_cons]
      unfold dbGet at ih ⊢
      by_cases h : (o.id == oid) = true
      · rw [if_pos h]
        simp only [List.find?_cons]
        rw [h]
        rfl
      · have hb : (o.id == oid) = false := by simpa using h
        rw [if_neg h]
        simp only [List.find?_cons]
        rw [hb]
        simpa [dbUpdateJob] using ih

lemma send_db_cases (ok : Bool) (db : List Order) (oid : Nat) (fmt : String) :
    (send_reminder_email ok db oid fmt).1 = db ∨
    (send_reminder_email ok db oid fmt).1 = dbUpdateStatus db oid "sent" := by
  unfold send_reminder_email
  rcases dbGet db oid with _ | o
  · exact Or.inl rfl
  · simp only []
    rcases firstTokenName o.full_name with _ | fn0
    · exact Or.inl rfl
    · simp only []
      rcases pyFormat (effSubject o fmt) (renderDict o fmt fn0) with _ | subj
      · exact Or.inl rfl
      · simp only []
        rcases pyFormat (effBody o fmt) (renderDict o fmt fn0) with _ | bod
        · exact Or.inl rfl
        · simp only []
          cases ok
          · exact Or.inl rfl
          · exact Or.inr rfl

/-- C2 (amended): for an imported non-invoice row, (1) if the computed
send time (pickup minus the 4-hour lead) is strictly before the clock
at the clamp check, the order is *rescheduled*: its send time becomes
`now + 5` minutes, a trigger for it is registered, the order stays
`pending`, and nothing is dispatched; (2) only when the computed send
time is not in the past (and not after the clock at the scheduling
check) does the immediate-send branch run — and there, because the
row's INSERT is not yet committed while `send_reminder_email`
re-fetches on a fresh connection, the freshly assigned SERIAL id
matches no visible row: no dispatch is attempted and no error raised,
yet the row is marked `sent`.  On that branch the send is silently
dropped. -/
theorem import_overdue_clamp_policy (cy : Nat) (today : PyDate) (t1 t2 : Int) (ok : Bool)
    (db : List Order) (jobs : List Job) (fid fjob : Nat)
    (fmt em onum pts itn fn : String) :
    (epochMin (parse_date_from_item_name cy today itn) (parse_pickup_time pts) - 240 < t1 →
     t1 + 5 > t2 →
      (dbGet (processRow cy today t1 t2 ok db jobs fid fjob fmt none none em onum pts itn fn).1
          fid).map Order.status = some "pending" ∧
      (processRow cy today t1 t2 ok db jobs fid fjob fmt none none em onum pts itn fn).2.1 =
        ⟨fjob, fid, t1 + 5, fmt⟩ :: jobs ∧
      (processRow cy today t1 t2 ok db jobs fid fjob fmt none none em onum pts itn fn).2.2 = []) ∧
    (dbGet db fid = none →
     t1 ≤ epochMin (parse_date_from_item_name cy today itn) (parse_pickup_time pts) - 240 →
     epochMin (parse_date_from_item_name cy today itn) (parse_pickup_time pts) - 240 ≤ t2 →
      (dbGet (processRow cy today t1 t2 ok db jobs fid fjob fmt none none em onum pts itn fn).1
          fid).map Order.status = some "sent" ∧
      (processRow cy today t1 t2 ok db jobs fid fjob fmt none none em onum pts itn fn).2.1 =
        jobs ∧
      (processRow cy today t1 t2 ok db jobs fid fjob fmt none none em onum pts itn fn).2.2 =
        []) := by
  constructor
  · intro hover hfresh
    unfold processRow
    simp only []
    rw [if_pos hover, if_pos hfresh]
    simp only []
    refine ⟨?_, by first | rfl | trivial, by first | rfl | trivial⟩
    have hcons : dbGet
        (importedOrder fid em onum pts itn fn (t1 + 5) none none fmt :: db) fid =
        some (importedOrder fid em onum pts itn fn (t1 + 5) none none fmt) :=
      dbGet_cons_self _ db
    rw [dbGet_updateJob_self, hcons]
    rfl
  · intro hfresh hge hle
    unfold processRow
    simp only []
    generalize hs0 :
      epochMin (parse_date_from_item_name cy today itn) (parse_pickup_time pts) - 240 = s0
        at hge hle ⊢
    have hin : (if s0 < t1 then t1 + 5 else s0) = s0 := if_neg (by omega)
    rw [hin]
    rw [if_neg (show ¬ s0 > t2 by omega)]
    rw [send_reminder_email_absent ok db fid fmt hfresh]
    simp only []
    simp only [List.any_nil, Bool.false_eq_true, if_false]
    have hcons : dbGet (importedOrder fid em onum pts itn fn s0 none none fmt :: db) fid =
        some (importedOrder fid em onum pts itn fn s0 none none fmt) :=
      dbGet_cons_self _ db
    refine ⟨?_, by first | rfl | trivial, by first | rfl | trivial⟩
    rw [dbGet_updateJob_self, dbGet_updateStatus_self, hcons]
    rfl

/-- Witness for the amended C2 theorem on the concrete runs: the
overdue row is rescheduled; the boundary row is marked sent with no
dispatch and no event at all. -/
theorem import_overdue_clamp_policy_witness :
    ((dbGet overdueRowRun.1 1).map Order.status = some "pending" ∧
      overdueRowRun.2.1 = ⟨7, 1, lateClock + 5, "familymeal"⟩ :: [] ∧
      overdueRowRun.2.2 = []) ∧
    ((dbGet failedDispatchRun.1 1).map Order.status = some "sent" ∧
      failedDispatchRun.2.1 = [] ∧
      failedDispatchRun.2.2 = []) :=
  ⟨(import_overdue_clamp_policy 2025 ⟨2025, 9, 1⟩ lateClock lateClock true [] [] 1 7
        "familymeal" "a@b.c" "17" "4:30 PM" "Meal" "Al Smith").1
      (by decide) (by decide),
   (import_overdue_clamp_policy 2025 ⟨2025, 9, 1⟩ boundarySend boundarySend false [] [] 1 7
        "familymeal" "a@b.c" "17" "4:30 PM" "Meal" "Al Smith").2
      (by decide) (by decide) (by decide)⟩

lemma dbGet_none_delete (db : List Order) (oid x : Nat) (h : dbGet db x = none) :
    dbGet (dbDelete db oid) x = none := by
  refine List.find?_eq_none.2 (fun o ho => ?_)
  exact List.find?_eq_none.1 h o (List.mem_of_mem_filter ho)

lemma dbGet_none_updateStatus (db : List Order) (oid : Nat) (st : String) (x : Nat)
    (h : dbGet db x = none) : dbGet (dbUpdateStatus db oid st) x = none := by
  refine List.find?_eq_none.2 (fun o ho => ?_)
  rcases List.mem_map.1 ho with ⟨o0, ho0, rfl⟩
  have := List.find?_eq_none.1 h o0 ho0
  by_cases hid : (o0.id == oid) = true
  · simpa [hid] using this
  · simpa [hid] using this

lemma dbGet_none_send (ok : Bool) (db : List Order) (oid : Nat) (fmt : String) (x : Nat)
    (h : dbGet db x = none) : dbGet (send_reminder_email ok db oid fmt).1 x = none := by
  rcases send_db_cases ok db oid fmt with hc | hc
  · rw [hc]; exact h
  · rw [hc]; exact dbGet_none_updateStatus db oid "sent" x h

lemma delete_bulk_loop_none_preserved (ids : List Nat) :
    ∀ (db : List Order) (jobs : List Job) (c x : Nat), dbGet db x = none →
      dbGet (delete_bulk_loop db jobs c ids).1 x = none := by
  induction ids with
  | nil => intro db jobs c x h; exact h
  | cons oid rest ih =>
      intro db jobs c x h
      rw [delete_bulk_loop]
      rcases hget : dbGet db oid with _ | o
      · exact ih db jobs c x h
      · simp only []
        rcases hres : delete_bulk_loop (dbDelete db oid) (cancelPendingJob jobs o).1
            (c + 1) rest with ⟨dbf, jobsf, cf, evf⟩
        have := ih (dbDelete db oid) (cancelPendingJob jobs o).1 (c + 1) x
          (dbGet_none_delete db oid x h)
        rw [hres] at this
        simpa using this

lemma send_bulk_loop_none_preserved (ok : Bool) (ids : List Nat) :
    ∀ (db : List Order) (jobs : List Job) (c x : Nat), dbGet db x = none →
      dbGet (send_bulk_loop ok db jobs c ids).1 x = none := by
  induction ids with
  | nil => intro db jobs c x h; exact h
  | cons oid rest ih =>
      intro db jobs c x h
      rw [send_bulk_loop]
      rcases hget : dbGet db oid with _ | o
      · exact ih db jobs c x h
      · simp only []
        by_cases hp : o.status = "pending"
        · rw [if_pos hp]
          rcases hse : send_reminder_email ok db oid (orEmpty o.csv_format) with ⟨db1, ev⟩
          simp only []
          have hdb1 : dbGet db1 x = none := by
            have := dbGet_none_send ok db oid (orEmpty o.csv_format) x h
            rw [hse] at this
            exact this
          by_cases hcr : ev.any isCrash = true
          · rw [if_pos hcr]
            exact hdb1
          · rw [if_neg hcr]
            rcases hres : send_bulk_loop ok db1 (cancelJobRef jobs o.job_id) (c + 1) rest
              with ⟨dbf, jobsf, cf, evf⟩
            have := ih db1 (cancelJobRef jobs o.job_id) (c + 1) x hdb1
            rw [hres] at this
            simpa using this
        · rw [if_neg hp]
          exact ih db jobs c x h

lemma delete_bulk_loop_skip (bad : Nat) (ids2 : List Nat) :
    ∀ (ids1 : List Nat) (db : List Order) (jobs : List Job) (c : Nat),
      dbGet db bad = none →
      delete_bulk_loop db jobs c (ids1 ++ bad :: ids2) =
        delete_bulk_loop db jobs c (ids1 ++ ids2) := by
  intro ids1
  induction ids1 with
  | nil =>
      intro db jobs c hbad
      simp only [List.nil_append]
      rw [delete_bulk_loop, hbad]
  | cons a ids1 ih =>
      intro db jobs c hbad
      simp only [List.cons_append]
      rw [delete_bulk_loop]
      conv_rhs => rw [delete_bulk_loop]
      rcases hget : dbGet db a with _ | o
      · exact ih db jobs c hbad
      · simp only []
        rw [ih (dbDelete db a) (cancelPendingJob jobs o).1 (c + 1)
          (dbGet_none_delete db a bad hbad)]

lemma send_bulk_loop_skip (ok : Bool) (bad : Nat) (ids2 : List Nat) :
    ∀ (ids1 : List Nat) (db : List Order) (jobs : List Job) (c : Nat),
      dbGet db bad = none →
      send_bulk_loop ok db jobs c (ids1 ++ bad :: ids2) =
        send_bulk_loop ok db jobs c (ids1 ++ ids2) := by
  intro ids1
  induction ids1 with
  | nil =>
      intro db jobs c hbad
      simp only [List.nil_append]
      rw [send_bulk_loop, hbad]
  | cons a ids1 ih =>
      intro db jobs c hbad
      simp only [List.cons_append]
      rw [send_bulk_loop]
      conv_rhs => rw [send_bulk_loop]
      rcases hget : dbGet db a with _ | o
      · exact ih db jobs c hbad
      · simp only []
        by_cases hp : o.status = "pending"
        · rw [if_pos hp, if_pos hp]
          rcases hse : send_reminder_email ok db a (orEmpty o.csv_format) with ⟨db1, ev⟩
          simp only []
          have hdb1 : dbGet db1 bad = none := by
            have := dbGet_none_send ok db a (orEmpty o.csv_format) bad hbad
            rw [hse] at this
            exact this
          by_cases hcr : ev.any isCrash = true
          · rw [if_pos hcr, if_pos hcr]
          · rw [if_neg hcr, if_neg hcr]
            rw [ih db1 (cancelJobRef jobs o.job_id) (c + 1) hdb1]
        · rw [if_neg hp, if_neg hp]
          exact ih db jobs c hbad

lemma delete_bulk_loop_removes (ids : List Nat) :
    ∀ (db : List Order) (jobs : List Job) (c : Nat), ∀ x ∈ ids,
      dbGet (delete_bulk_loop db jobs c ids).1 x = none := by
  induction ids with
  | nil => intro db jobs c x hx; simp at hx
  | cons oid rest ih =>
      intro db jobs c x hx
      rw [delete_bulk_loop]
      rcases hget : dbGet db oid with _ | o
      · rcases List.mem_cons.1 hx with rfl | hx'
        · exact delete_bulk_loop_none_preserved rest db jobs c x hget
        · exact ih db jobs c x hx'
      · simp only []
        rcases hres : delete_bulk_loop (dbDelete db oid) (cancelPendingJob jobs o).1
            (c + 1) rest with ⟨dbf, jobsf, cf, evf⟩
        rcases List.mem_cons.1 hx with rfl | hx'
        · have := delete_bulk_loop_none_preserved rest (dbDelete db x)
            (cancelPendingJob jobs o).1 (c + 1) x (dbGet_delete_self db x)
          rw [hres] at this
          simpa using this
        · have := ih (dbDelete db oid) (cancelPendingJob jobs o).1 (c + 1) x hx'
          rw [hres] at this
          simpa using this

/-- C9, counterexample: a bulk delete (resp. bulk send) over a set
containing the invalid id 999 produces a result identical — store, job
queue, counter, events, and flash message — to the same bulk operation
without the invalid id, and its flash reports only the success count;
the invalid id is not reported as failed anywhere in the result. -/
theorem bulk_invalid_id_unreported :
    delete_bulk [pendingOrder] [pendingJob] [1, 999] =
      delete_bulk [pendingOrder] [pendingJob] [1] ∧
    (delete_bulk [pendingOrder] [pendingJob] [1, 999]).flash =
      "Deleted 1 orders successfully" ∧
    send_bulk true [pendingOrder] [pendingJob] [1, 999] =
      send_bulk true [pendingOrder] [pendingJob] [1] ∧
    (send_bulk true [pendingOrder] [pendingJob] [1, 999]).flash =
      "Sent 1 emails successfully" := by
  decide

/-- C9 (amended): the bulk operations do complete the per-id action for
every valid id — an invalid id anywhere in the list has no effect on
the processing of the others (the whole result is the same as if it had
not been posted), and after a bulk delete every posted id's record is
gone.  But the invalid id is silently skipped, not reported as failed:
the aggregate reports only the success counter. -/
theorem bulk_ops_skip_invalid_ids :
    (∀ (db : List Order) (jobs : List Job) (ids1 ids2 : List Nat) (bad : Nat),
        dbGet db bad = none →
        delete_bulk db jobs (ids1 ++ bad :: ids2) = delete_bulk db jobs (ids1 ++ ids2)) ∧
    (∀ (ok : Bool) (db : List Order) (jobs : List Job) (ids1 ids2 : List Nat) (bad : Nat),
        dbGet db bad = none →
        send_bulk ok db jobs (ids1 ++ bad :: ids2) = send_bulk ok db jobs (ids1 ++ ids2)) ∧
    (∀ (db : List Order) (jobs : List Job) (ids : List Nat), ∀ oid ∈ ids,
        dbGet (delete_bulk db jobs ids).db oid = none) := by
  refine ⟨?_, ?_, ?_⟩
  · intro db jobs ids1 ids2 bad hbad
    unfold delete_bulk
    rw [delete_bulk_loop_skip bad ids2 ids1 db jobs 0 hbad]
  · intro ok db jobs ids1 ids2 bad hbad
    unfold send_bulk
    rw [send_bulk_loop_skip ok bad ids2 ids1 db jobs 0 hbad]
  · intro db jobs ids oid hoid
    unfold delete_bulk
    rcases hres : delete_bulk_loop db jobs 0 ids with ⟨dbf, jobsf, cf, evf⟩
    have := delete_bulk_loop_removes ids db jobs 0 oid hoid
    rw [hres] at this
    simpa using this

/-- Witness for the amended C9 theorem at a concrete store and id
lists. -/
theorem bulk_ops_skip_invalid_ids_witness :
    delete_bulk [pendingOrder] [pendingJob] ([1] ++ 999 :: []) =
      delete_bulk [pendingOrder] [pendingJob] ([1] ++ []) ∧
    send_bulk true [pendingOrder] [pendingJob] ([1] ++ 999 :: []) =
      send_bulk true [pendingOrder] [pendingJob] ([1] ++ []) ∧
    dbGet (delete_bulk [pendingOrder] [pendingJob] [1, 999]).db 1 = none :=
  ⟨bulk_ops_skip_invalid_ids.1 [pendingOrder] [pendingJob] [1] [] 999 (by decide),
   bulk_ops_skip_invalid_ids.2.1 true [pendingOrder] [pendingJob] [1] [] 999 (by decide),
   bulk_ops_skip_invalid_ids.2.2 [pendingOrder] [pendingJob] [1, 999] 1 (by decide)⟩

/-- C10: (1) a `csv_format` other than the three recognized variants
silently selects the familymeal column mapping (no rejection path
exists for an unknown format — only missing columns abort a batch);
(2) at send time every effective format other than `dance_invoice`
selects the default meal credentials, and its default templates are
exactly the ones the familymeal format would select; (3) a non-empty
stored `csv_format` is the effective format whatever argument the job
passed. -/
theorem unknown_format_falls_back_to_familymeal :
    (∀ fmt : String, fmt ≠ "familymeal" → fmt ≠ "wonton" → fmt ≠ "dance_invoice" →
        mappingFor fmt = mappingFor "familymeal") ∧
    (∀ fmt : String, fmt ≠ "dance_invoice" →
        senderFor fmt = (SENDER_EMAIL, SENDER_PASSWORD) ∧
        ∀ item : String, defaultTemplates fmt item = defaultTemplates "familymeal" item) ∧
    (∀ (stored arg : String) (o : Order), o.csv_format = some stored → stored ≠ "" →
        effFmt o arg = stored) := by
  refine ⟨?_, ?_, ?_⟩
  · intro fmt h1 h2 h3
    have hb1 : (fmt == "familymeal") = false := beq_eq_false_iff_ne.2 h1
    have hb2 : (fmt == "wonton") = false := beq_eq_false_iff_ne.2 h2
    have hb3 : (fmt == "dance_invoice") = false := beq_eq_false_iff_ne.2 h3
    simp [mappingFor, column_mappings, List.lookup, hb1, hb2, hb3]
  · intro fmt h
    constructor
    · simp [senderFor, h]
    · intro item
      simp [defaultTemplates, h]
  · intro stored arg o ho hne
    simp [effFmt, pyOrS, ho, hne]

/-- Witness for C10 at format `"bogus"` (unknown) and `"wonton"`
(known, non-invoice). -/
theorem unknown_format_falls_back_to_familymeal_witness :
    mappingFor "bogus" = mappingFor "familymeal" ∧
    senderFor "wonton" = (SENDER_EMAIL, SENDER_PASSWORD) ∧
    defaultTemplates "wonton" "Meal" = defaultTemplates "familymeal" "Meal" ∧
    effFmt pendingOrder "dance_invoice" = "familymeal" :=
  ⟨unknown_format_falls_back_to_familymeal.1 "bogus" (by decide) (by decide) (by decide),
   (unknown_format_falls_back_to_familymeal.2.1 "wonton" (by decide)).1,
   (unknown_format_falls_back_to_familymeal.2.1 "wonton" (by decide)).2 "Meal",
   unknown_format_falls_back_to_familymeal.2.2 "familymeal" "dance_invoice" pendingOrder
     (by decide) (by decide)⟩
